import Mathlib

/-
Verification of the half-edge mesh editing kernel in src/src/student/meshedit.cpp
(MyCardinal3D).  The mesh is embedded shallowly: each element kind lives in an
association list from a stable numeric id to its record, mirroring the arena of
stable handles described by the specification.  Connectivity references
(`next`, `twin`, `vertex`, `edge`, `face`) become ids; the C++ pointer writes
become first-match updates of the association lists; `erase` removes the entry
(the "live" elements); allocation hands out ids from a monotone counter.
Unbounded C++ `while` walks are embedded with explicit fuel; every theorem that
relies on a walk carries hypotheses under which the walk provably stops within
the fuel, exactly where the C++ loop would stop.  Float positions are embedded
as exact rationals; no claim proved here depends on rounding.
-/

namespace MeshEdit

/-- Exact-rational stand-in for the float Vec3 used for positions. -/
structure Vec3Q where
  x : ℚ
  y : ℚ
  z : ℚ
deriving DecidableEq, Repr

/-- The five connectivity references of the source Halfedge class. -/
structure HRec where
  next : Nat
  twin : Nat
  vertex : Nat
  edge : Nat
  face : Nat
deriving DecidableEq, Repr

/-- Vertex record: representative outgoing half-edge and position. -/
structure VRec where
  rep : Nat
  pos : Vec3Q
deriving DecidableEq, Repr

/-- Face record: representative half-edge and the boundary flag of the source Face. -/
structure FRec where
  rep : Nat
  bdry : Bool
deriving DecidableEq, Repr

/-- One half-edge mesh state: association lists of live elements plus the fresh-id counter. -/
structure Mesh where
  hes : List (Nat × HRec)
  verts : List (Nat × VRec)
  edges : List (Nat × Nat)
  faces : List (Nat × FRec)
  fresh : Nat
deriving DecidableEq, Repr

/-- First-match lookup in an association list. -/
def lookupA {α : Type} (k : Nat) : List (Nat × α) → Option α
  | [] => none
  | (k2, v) :: t => if k = k2 then some v else lookupA k t

/-- Modify the first entry with the given key; no insertion if the key is absent. -/
def updateA {α : Type} (k : Nat) (f : α → α) : List (Nat × α) → List (Nat × α)
  | [] => []
  | (k2, v) :: t => if k = k2 then (k2, f v) :: t else (k2, v) :: updateA k f t

/-- Remove the first entry with the given key. -/
def eraseA {α : Type} (k : Nat) : List (Nat × α) → List (Nat × α)
  | [] => []
  | (k2, v) :: t => if k = k2 then t else (k2, v) :: eraseA k t

/-- Every key of the association list is below the bound. -/
def keysLT {α : Type} (n : Nat) (l : List (Nat × α)) : Bool :=
  l.all fun p => p.1 < n

/-- Default half-edge record returned for a dangling reference. -/
def dHRec : HRec := ⟨0, 0, 0, 0, 0⟩

/-- Default vertex record for a dangling reference. -/
def dVRec : VRec := ⟨0, ⟨0, 0, 0⟩⟩

/-- Default face record for a dangling reference. -/
def dFRec : FRec := ⟨0, false⟩

/-- Default edge record (cost and edge of a default-constructed Edge_Record). -/
def getHE (m : Mesh) (h : Nat) : HRec := (lookupA h m.hes).getD dHRec

def vrep (m : Mesh) (v : Nat) : Nat := ((lookupA v m.verts).getD dVRec).rep

def vpos (m : Mesh) (v : Nat) : Vec3Q := ((lookupA v m.verts).getD dVRec).pos

def erep (m : Mesh) (e : Nat) : Nat := (lookupA e m.edges).getD 0

def frep (m : Mesh) (f : Nat) : Nat := ((lookupA f m.faces).getD dFRec).rep

def fbdry (m : Mesh) (f : Nat) : Bool := ((lookupA f m.faces).getD dFRec).bdry

def setNextH (m : Mesh) (h v : Nat) : Mesh :=
  { m with hes := updateA h (fun r => { r with next := v }) m.hes }

def setTwinH (m : Mesh) (h v : Nat) : Mesh :=
  { m with hes := updateA h (fun r => { r with twin := v }) m.hes }

def setVtxH (m : Mesh) (h v : Nat) : Mesh :=
  { m with hes := updateA h (fun r => { r with vertex := v }) m.hes }

def setEdgH (m : Mesh) (h v : Nat) : Mesh :=
  { m with hes := updateA h (fun r => { r with edge := v }) m.hes }

def setFceH (m : Mesh) (h v : Nat) : Mesh :=
  { m with hes := updateA h (fun r => { r with face := v }) m.hes }

def setVRep (m : Mesh) (v h : Nat) : Mesh :=
  { m with verts := updateA v (fun r => { r with rep := h }) m.verts }

def setVPos (m : Mesh) (v : Nat) (p : Vec3Q) : Mesh :=
  { m with verts := updateA v (fun r => { r with pos := p }) m.verts }

def setERep (m : Mesh) (e h : Nat) : Mesh :=
  { m with edges := updateA e (fun _ => h) m.edges }

def setFRep (m : Mesh) (f h : Nat) : Mesh :=
  { m with faces := updateA f (fun r => { r with rep := h }) m.faces }

def eraseHE (m : Mesh) (h : Nat) : Mesh := { m with hes := eraseA h m.hes }

def eraseV (m : Mesh) (v : Nat) : Mesh := { m with verts := eraseA v m.verts }

def eraseE (m : Mesh) (e : Nat) : Mesh := { m with edges := eraseA e m.edges }

def eraseF (m : Mesh) (f : Nat) : Mesh := { m with faces := eraseA f m.faces }

/-- The arena allocator new_vertex: a fresh id with default contents. -/
def allocV (m : Mesh) : Nat × Mesh :=
  (m.fresh, { m with verts := (m.fresh, dVRec) :: m.verts, fresh := m.fresh + 1 })

/-- The arena allocator new_edge. -/
def allocE (m : Mesh) : Nat × Mesh :=
  (m.fresh, { m with edges := (m.fresh, 0) :: m.edges, fresh := m.fresh + 1 })

/-- The arena allocator new_halfedge. -/
def allocH (m : Mesh) : Nat × Mesh :=
  (m.fresh, { m with hes := (m.fresh, dHRec) :: m.hes, fresh := m.fresh + 1 })

/-- The arena allocator new_face (interior face: boundary flag false). -/
def allocF (m : Mesh) : Nat × Mesh :=
  (m.fresh, { m with faces := (m.fresh, dFRec) :: m.faces, fresh := m.fresh + 1 })

/-- The source idiom `x = start; while(x->next() != target) x = x->next();`,
with fuel bounding the walk; at fuel 0 the current half-edge is returned. -/
def walkPrev (m : Mesh) (target : Nat) : Nat → Nat → Nat
  | cur, 0 => cur
  | cur, fuel + 1 =>
    if (getHE m cur).next = target then cur else walkPrev m target ((getHE m cur).next) fuel

/-- Modelled from the spec: the do-while counting walk inside Face::degree of the
external half-edge container (degree = length of the face's half-edge cycle). -/
def degLoop (m : Mesh) (s : Nat) : Nat → Nat → Nat → Nat
  | _, acc, 0 => acc
  | cur, acc, fuel + 1 =>
    if (getHE m cur).next = s then acc + 1 else degLoop m s ((getHE m cur).next) (acc + 1) fuel

/-- Modelled from the spec: Face::degree (length of the face's half-edge cycle),
walking next from the face's representative half-edge. -/
def faceDegree (m : Mesh) (f : Nat) : Nat :=
  degLoop m (frep m f) (frep m f) 0 m.hes.length

/-- Modelled from the spec: Halfedge::is_boundary — whether the incident face is a
boundary (virtual) face. -/
def heBoundary (m : Mesh) (h : Nat) : Bool := fbdry m (getHE m h).face

/-- Modelled from the spec: Edge::on_boundary — either of its two half-edges is boundary. -/
def edgeOnBoundary (m : Mesh) (e : Nat) : Bool :=
  heBoundary m (erep m e) || heBoundary m (getHE m (erep m e)).twin

def vadd (a b : Vec3Q) : Vec3Q := ⟨a.x + b.x, a.y + b.y, a.z + b.z⟩

def vhalf (a : Vec3Q) : Vec3Q := ⟨a.x / 2, a.y / 2, a.z / 2⟩

/-- Modelled from the spec: Edge::center — midpoint of the two endpoint positions. -/
def edgeCenter (m : Mesh) (e : Nat) : Vec3Q :=
  vhalf (vadd (vpos m (getHE m (erep m e)).vertex)
              (vpos m (getHE m (getHE m (erep m e)).twin).vertex))

/-- Halfedge_Mesh::flip_edge from meshedit.cpp lines 179-237: refuse a boundary
edge, otherwise rotate the edge to the opposite diagonal by the exact sequence of
pointer writes of the source. -/
def flip_edge (m : Mesh) (e : Nat) : Option Nat × Mesh :=
  if edgeOnBoundary m e then (none, m) else
  let he1 := erep m e
  let he2 := (getHE m he1).twin
  let hn1 := (getHE m he1).next
  let hn2 := (getHE m he2).next
  let hnn1 := (getHE m hn1).next
  let hnn2 := (getHE m hn2).next
  let dest1 := (getHE m hnn1).vertex
  let dest2 := (getHE m hnn2).vertex
  let backhn1 := walkPrev m he1 hnn1 m.hes.length
  let backhn2 := walkPrev m he2 hnn2 m.hes.length
  let m1 := setVtxH m he1 dest2
  let m2 := setVtxH m1 he2 dest1
  let m3 := setNextH m2 he1 hnn1
  let m4 := setNextH m3 he2 hnn2
  let m5 := setNextH m4 hn1 he2
  let m6 := setNextH m5 hn2 he1
  let m7 := setNextH m6 backhn1 hn2
  let m8 := setNextH m7 backhn2 hn1
  let m9 := setFRep m8 (getHE m8 he1).face he1
  let m10 := setFRep m9 (getHE m9 he2).face he2
  let m11 := setFceH m10 hn1 (getHE m10 he2).face
  let m12 := setFceH m11 hn2 (getHE m11 he1).face
  (some e, m12)

/-- Halfedge_Mesh::split_edge from meshedit.cpp lines 244-376: refuse if either
side is boundary; otherwise allocate one vertex, four edges, six half-edges and
four faces (in source allocation order) and rewire exactly as the source's four
face blocks do, finally erasing the old edge and the two old faces. -/
def split_edge (m : Mesh) (e : Nat) : Option Nat × Mesh :=
  if heBoundary m (erep m e) || heBoundary m (getHE m (erep m e)).twin then (none, m) else
  let he1 := erep m e
  let he2 := (getHE m he1).twin
  let hn1 := (getHE m he1).next
  let hn2 := (getHE m he2).next
  let hnn1 := (getHE m hn1).next
  let hnn2 := (getHE m hn2).next
  let vA := (getHE m he2).vertex
  let vB := (getHE m he1).vertex
  let vC := (getHE m hnn1).vertex
  let vD := (getHE m hnn2).vertex
  let f1 := (getHE m he1).face
  let f2 := (getHE m he2).face
  let p1 := allocV m
  let midVert := p1.1
  let p2 := allocE p1.2
  let edgeA := p2.1
  let p3 := allocE p2.2
  let edgeB := p3.1
  let p4 := allocE p3.2
  let edgeC := p4.1
  let p5 := allocE p4.2
  let edgeD := p5.1
  let p6 := allocH p5.2
  let nhn1 := p6.1
  let p7 := allocH p6.2
  let nhn2 := p7.1
  let p8 := allocH p7.2
  let nhn3 := p8.1
  let p9 := allocH p8.2
  let nhn4 := p9.1
  let p10 := allocH p9.2
  let nhe2 := p10.1
  let p11 := allocH p10.2
  let nhe4 := p11.1
  let p12 := allocF p11.2
  let nface1 := p12.1
  let p13 := allocF p12.2
  let nface2 := p13.1
  let p14 := allocF p13.2
  let nface3 := p14.1
  let p15 := allocF p14.2
  let nface4 := p15.1
  let m0 := p15.2
  let m0 := setVPos m0 midVert (edgeCenter m0 e)
  let m0 := setVRep m0 midVert nhn1
  let m0 := setERep m0 edgeA he2
  let m0 := setERep m0 edgeB he1
  let m0 := setERep m0 edgeC nhn2
  let m0 := setERep m0 edgeD nhn1
  let m0 := setFRep m0 nface1 he2
  let m0 := setFRep m0 nface2 nhe2
  let m0 := setFRep m0 nface3 he1
  let m0 := setFRep m0 nface4 nhe4
  let m0 := setNextH m0 he2 nhn1
  let m0 := setEdgH m0 he2 edgeA
  let m0 := setTwinH m0 he2 nhe2
  let m0 := setVtxH m0 he2 vA
  let m0 := setFceH m0 he2 nface1
  let m0 := setNextH m0 nhn1 hnn2
  let m0 := setEdgH m0 nhn1 edgeD
  let m0 := setTwinH m0 nhn1 nhn4
  let m0 := setVtxH m0 nhn1 midVert
  let m0 := setFceH m0 nhn1 nface1
  let m0 := setNextH m0 hnn2 he2
  let m0 := setEdgH m0 hnn2 (getHE m0 hnn2).edge
  let m0 := setTwinH m0 hnn2 (getHE m0 hnn2).twin
  let m0 := setVtxH m0 hnn2 vD
  let m0 := setFceH m0 hnn2 nface1
  let m0 := setNextH m0 nhe2 hn1
  let m0 := setEdgH m0 nhe2 edgeA
  let m0 := setTwinH m0 nhe2 he2
  let m0 := setVtxH m0 nhe2 midVert
  let m0 := setFceH m0 nhe2 nface2
  let m0 := setNextH m0 nhn2 nhe2
  let m0 := setEdgH m0 nhn2 edgeC
  let m0 := setTwinH m0 nhn2 nhn3
  let m0 := setVtxH m0 nhn2 vC
  let m0 := setFceH m0 nhn2 nface2
  let m0 := setNextH m0 hn1 nhn2
  let m0 := setEdgH m0 hn1 (getHE m0 hn1).edge
  let m0 := setTwinH m0 hn1 (getHE m0 hn1).twin
  let m0 := setVtxH m0 hn1 vA
  let m0 := setFceH m0 hn1 nface2
  let m0 := setNextH m0 he1 nhn3
  let m0 := setEdgH m0 he1 edgeB
  let m0 := setTwinH m0 he1 nhe4
  let m0 := setVtxH m0 he1 vB
  let m0 := setFceH m0 he1 nface3
  let m0 := setNextH m0 nhn3 hnn1
  let m0 := setEdgH m0 nhn3 edgeC
  let m0 := setTwinH m0 nhn3 nhn2
  let m0 := setVtxH m0 nhn3 midVert
  let m0 := setFceH m0 nhn3 nface3
  let m0 := setNextH m0 hnn1 he1
  let m0 := setEdgH m0 hnn1 (getHE m0 hnn1).edge
  let m0 := setTwinH m0 hnn1 (getHE m0 hnn1).twin
  let m0 := setVtxH m0 hnn1 vC
  let m0 := setFceH m0 hnn1 nface3
  let m0 := setNextH m0 nhe4 hn2
  let m0 := setEdgH m0 nhe4 edgeB
  let m0 := setTwinH m0 nhe4 he1
  let m0 := setVtxH m0 nhe4 midVert
  let m0 := setFceH m0 nhe4 nface4
  let m0 := setNextH m0 nhn4 nhe4
  let m0 := setEdgH m0 nhn4 edgeD
  let m0 := setTwinH m0 nhn4 nhn1
  let m0 := setVtxH m0 nhn4 vD
  let m0 := setFceH m0 nhn4 nface4
  let m0 := setNextH m0 hn2 nhn4
  let m0 := setEdgH m0 hn2 (getHE m0 hn2).edge
  let m0 := setTwinH m0 hn2 (getHE m0 hn2).twin
  let m0 := setVtxH m0 hn2 vB
  let m0 := setFceH m0 hn2 nface4
  let m0 := eraseE m0 e
  let m0 := eraseF m0 f1
  let m0 := eraseF m0 f2
  (some midVert, m0)

/-- The source's vertex-retarget loop in collapse_edge (lines 83-93 and 100-108):
while the current half-edge is not the stopping one, set its origin to the new
vertex, walk backwards around its face to the half-edge pointing at it, and hop
to that half-edge's twin.  Fuel bounds the outer loop. -/
def retargetFan (stop newV : Nat) : Nat → Nat → Mesh → Mesh
  | 0, _, m => m
  | fuel + 1, cur, m =>
    if cur = stop then m
    else
      let m1 := setVtxH m cur newV
      let p := walkPrev m1 cur cur m1.hes.length
      retargetFan stop newV fuel (getHE m1 p).twin m1

/-- The side-1 surgery of collapse_edge (meshedit.cpp lines 111-131): if the face
of heX is a triangle, splice the two remaining half-edges of the degenerate face
into one edge and erase the face, one edge and two half-edges (with the source's
read/write/erase order); otherwise shrink the face cycle past heX. -/
def collapseSideA (m : Mesh) (heX hnnX nv : Nat) : Mesh :=
  if faceDegree m (getHE m heX).face = 3 then
    let hn1 := (getHE m heX).next
    let hn1e := (getHE m hn1).edge
    let hnn1e := (getHE m hnnX).edge
    let hn1t := (getHE m hn1).twin
    let hnn1t := (getHE m hnnX).twin
    let m0 := setTwinH m hn1t hnn1t
    let m0 := setTwinH m0 hnn1t hn1t
    let m0 := setEdgH m0 hnn1t hn1e
    let m0 := setERep m0 hn1e hn1t
    let m0 := eraseF m0 (getHE m0 heX).face
    let m0 := eraseE m0 hnn1e
    let m0 := eraseHE m0 hn1
    let m0 := eraseHE m0 hnnX
    let m0 := setVRep m0 (getHE m0 hn1t).vertex hn1t
    let m0 := setVRep m0 nv hnn1t
    m0
  else
    let m0 := setNextH m hnnX (getHE m heX).next
    let m0 := setFRep m0 (getHE m0 hnnX).face hnnX
    m0

/-- The side-2 surgery of collapse_edge (meshedit.cpp lines 134-153); same as
side 1 except the face is erased after the half-edges and the new vertex's
representative is not reassigned. -/
def collapseSideB (m : Mesh) (heX hnnX : Nat) : Mesh :=
  if faceDegree m (getHE m heX).face = 3 then
    let hn2 := (getHE m heX).next
    let hn2e := (getHE m hn2).edge
    let hnn2e := (getHE m hnnX).edge
    let hn2t := (getHE m hn2).twin
    let hnn2t := (getHE m hnnX).twin
    let m0 := setTwinH m hn2t hnn2t
    let m0 := setTwinH m0 hnn2t hn2t
    let m0 := setEdgH m0 hnn2t hn2e
    let m0 := setERep m0 hn2e hn2t
    let m0 := eraseE m0 hnn2e
    let m0 := eraseHE m0 hn2
    let m0 := eraseHE m0 hnnX
    let m0 := eraseF m0 (getHE m0 heX).face
    let m0 := setVRep m0 (getHE m0 hn2t).vertex hn2t
    m0
  else
    let m0 := setNextH m hnnX (getHE m heX).next
    let m0 := setFRep m0 (getHE m0 hnnX).face hnnX
    m0

/-- Halfedge_Mesh::collapse_edge from meshedit.cpp lines 57-163: refuse when
fewer than two edges are live; otherwise create the midpoint vertex, retarget
both endpoint fans to it, perform the per-side surgery, and erase the edge, its
two half-edges and the two old vertices. -/
def collapse_edge (m : Mesh) (e : Nat) : Option Nat × Mesh :=
  if m.edges.length < 2 then (none, m) else
  let he1 := erep m e
  let he2 := (getHE m he1).twin
  let v1 := (getHE m he1).vertex
  let v2 := (getHE m he2).vertex
  let nv := (allocV m).1
  let mA := (allocV m).2
  let mA := setVPos mA nv (edgeCenter mA e)
  let mA := setVRep mA nv (getHE mA he1).next
  let hnn1 := walkPrev mA he1 he1 mA.hes.length
  let mB := retargetFan he1 nv mA.hes.length (getHE mA hnn1).twin mA
  let hnn2 := walkPrev mB he2 he2 mB.hes.length
  let mC := retargetFan he2 nv mB.hes.length (getHE mB hnn2).twin mB
  let mD := collapseSideA mC he1 hnn1 nv
  let mE := collapseSideB mD he2 hnn2
  let mF := eraseE mE e
  let mF := eraseHE mF he1
  let mF := eraseHE mF he2
  let mF := eraseV mF v1
  let mF := eraseV mF v2
  (some nv, mF)

/-- Halfedge_Mesh::erase_vertex (meshedit.cpp lines 37-41): the source is a stub
that always refuses. -/
def erase_vertex (m : Mesh) (v : Nat) : Option Nat × Mesh := (none, m)

/-- Halfedge_Mesh::erase_edge (meshedit.cpp lines 47-51): stub, always refuses. -/
def erase_edge (m : Mesh) (e : Nat) : Option Nat × Mesh := (none, m)

/-- Halfedge_Mesh::collapse_face (meshedit.cpp lines 169-173): stub, always refuses. -/
def collapse_face (m : Mesh) (f : Nat) : Option Nat × Mesh := (none, m)

/-- Halfedge_Mesh::bevel_vertex (meshedit.cpp lines 410-417): stub, always refuses. -/
def bevel_vertex (m : Mesh) (v : Nat) : Option Nat × Mesh := (none, m)

/-- Halfedge_Mesh::bevel_edge (meshedit.cpp lines 427-434): stub, always refuses. -/
def bevel_edge (m : Mesh) (e : Nat) : Option Nat × Mesh := (none, m)

/-- Halfedge_Mesh::bevel_face (meshedit.cpp lines 445-452): stub, always refuses. -/
def bevel_face (m : Mesh) (f : Nat) : Option Nat × Mesh := (none, m)

/-- Halfedge_Mesh::isotropic_remesh (meshedit.cpp lines 806-826): stub, returns
false and performs no mutation. -/
def isotropic_remesh (m : Mesh) : Bool × Mesh := (false, m)

/-- Closure check for a cyclic walk: every visited node passes the check and the
walk returns to the start within the fuel. -/
def cycleCheck (step : Nat → Nat) (chk : Nat → Bool) (s : Nat) : Nat → Nat → Bool
  | _, 0 => false
  | cur, fuel + 1 =>
    chk cur && (if step cur = s then true else cycleCheck step chk s (step cur) fuel)

/-- Whether a half-edge id refers to a live half-edge. -/
def liveH (m : Mesh) (h : Nat) : Bool := (lookupA h m.hes).isSome

/-- Invariant: he->twin->twin == he for every live half-edge, with a live twin. -/
def invTwins (m : Mesh) : Bool :=
  m.hes.all fun p => liveH m p.2.twin && decide ((getHE m p.2.twin).twin = p.1)

/-- Invariant: each edge's two half-edges are live mutual twins sharing the edge
back-reference. -/
def invEdges (m : Mesh) : Bool :=
  m.edges.all fun p =>
    liveH m p.2 && liveH m (getHE m p.2).twin &&
    decide ((getHE m p.2).edge = p.1) &&
    decide ((getHE m (getHE m p.2).twin).edge = p.1) &&
    decide ((getHE m (getHE m p.2).twin).twin = p.2)

/-- Invariant: following next from the face's representative cycles back through
live half-edges that all report this face. -/
def invFaces (m : Mesh) : Bool :=
  m.faces.all fun p =>
    cycleCheck (fun h => (getHE m h).next)
      (fun h => liveH m h && decide ((getHE m h).face = p.1))
      p.2.rep p.2.rep (m.hes.length + 1)

/-- Invariant: the vertex fan (twin-then-next walk from the representative)
closes and every visited half-edge originates at the vertex. -/
def invVerts (m : Mesh) : Bool :=
  m.verts.all fun p =>
    cycleCheck (fun h => (getHE m (getHE m h).twin).next)
      (fun h => liveH m h && decide ((getHE m h).vertex = p.1))
      p.2.rep p.2.rep (m.hes.length + 1)

/-- Walk the vertex fan from start looking for the half-edge h. -/
def fanHas (m : Mesh) (h : Nat) : Nat → Nat → Bool
  | _, 0 => false
  | cur, fuel + 1 =>
    if cur = h then true
    else
      let n := (getHE m (getHE m cur).twin).next
      if n = cur then false else fanHas m h n fuel

/-- Invariant completeness: every live half-edge is reachable in the fan of its
origin vertex (the fan visits exactly the half-edges leaving the vertex). -/
def invFanAll (m : Mesh) : Bool :=
  m.hes.all fun p => fanHas m p.1 (vrep m p.2.vertex) (m.hes.length + 1)

/-- Full-mesh validity: the four half-edge invariants of spec section 3. -/
def meshValid (m : Mesh) : Bool :=
  invTwins m && invEdges m && invFaces m && invVerts m && invFanAll m

/-- A regular tetrahedron: vertices 21-24, edges 31-36, faces 41-44, half-edges
1-12; each vertex's representative is an outgoing half-edge, each face cycle is
listed in order.  Half-edge 1 runs from vertex 21 to 22 on face 41. -/
def tetra : Mesh :=
  { hes :=
      [(1, ⟨2, 9, 21, 31, 41⟩), (2, ⟨3, 12, 22, 32, 41⟩), (3, ⟨1, 4, 23, 33, 41⟩),
       (4, ⟨5, 3, 21, 33, 42⟩), (5, ⟨6, 11, 23, 34, 42⟩), (6, ⟨4, 7, 24, 35, 42⟩),
       (7, ⟨8, 6, 21, 35, 43⟩), (8, ⟨9, 10, 24, 36, 43⟩), (9, ⟨7, 1, 22, 31, 43⟩),
       (10, ⟨11, 8, 22, 36, 44⟩), (11, ⟨12, 5, 24, 34, 44⟩), (12, ⟨10, 2, 23, 32, 44⟩)],
    verts :=
      [(21, ⟨1, ⟨0, 0, 0⟩⟩), (22, ⟨2, ⟨1, 0, 0⟩⟩), (23, ⟨3, ⟨0, 1, 0⟩⟩), (24, ⟨6, ⟨0, 0, 1⟩⟩)],
    edges := [(31, 1), (32, 2), (33, 3), (34, 5), (35, 6), (36, 8)],
    faces := [(41, ⟨1, false⟩), (42, ⟨4, false⟩), (43, ⟨9, false⟩), (44, ⟨10, false⟩)],
    fresh := 100 }

/-- Modelled from the spec: the float Vec4 of the external math library, as exact
rationals. -/
structure Vec4Q where
  x : ℚ
  y : ℚ
  z : ℚ
  w : ℚ
deriving DecidableEq, Repr

/-- Modelled from the spec: the external 4x4 float matrix Mat4, stored by
columns as the library does (so Q[3][0] is column 3, row 0). -/
structure Mat4Q where
  c0 : Vec4Q
  c1 : Vec4Q
  c2 : Vec4Q
  c3 : Vec4Q
deriving DecidableEq, Repr

def v4add (a b : Vec4Q) : Vec4Q := ⟨a.x + b.x, a.y + b.y, a.z + b.z, a.w + b.w⟩

def v4s (s : ℚ) (v : Vec4Q) : Vec4Q := ⟨s * v.x, s * v.y, s * v.z, s * v.w⟩

/-- Matrix-vector product for a column-major 4x4 matrix. -/
def mulV4 (M : Mat4Q) (v : Vec4Q) : Vec4Q :=
  v4add (v4add (v4s v.x M.c0) (v4s v.y M.c1)) (v4add (v4s v.z M.c2) (v4s v.w M.c3))

def madd (A B : Mat4Q) : Mat4Q :=
  ⟨v4add A.c0 B.c0, v4add A.c1 B.c1, v4add A.c2 B.c2, v4add A.c3 B.c3⟩

def smulM (s : ℚ) (M : Mat4Q) : Mat4Q := ⟨v4s s M.c0, v4s s M.c1, v4s s M.c2, v4s s M.c3⟩

/-- Modelled from the spec: the library Mat4 default constructor (identity). -/
def mat4Id : Mat4Q := ⟨⟨1, 0, 0, 0⟩, ⟨0, 1, 0, 0⟩, ⟨0, 0, 1, 0⟩, ⟨0, 0, 0, 1⟩⟩

def mat4Zero : Mat4Q := ⟨⟨0, 0, 0, 0⟩, ⟨0, 0, 0, 0⟩, ⟨0, 0, 0, 0⟩, ⟨0, 0, 0, 0⟩⟩

/-- Modelled from the spec: outer(u, v), the rank-one matrix with entry (r, c)
equal to u r * v c. -/
def outer4 (u v : Vec4Q) : Mat4Q := ⟨v4s v.x u, v4s v.y u, v4s v.z u, v4s v.w u⟩

/-- Determinant of the 3x3 matrix with rows (a b c), (d e f), (g h i). -/
def det3 (a b c d e f g h i : ℚ) : ℚ :=
  a * (e * i - f * h) - b * (d * i - f * g) + c * (d * h - e * g)

/-- Determinant of the 4x4 matrix, expanded along the first row. -/
def det4 (M : Mat4Q) : ℚ :=
  match M with
  | ⟨⟨a, e, i, m⟩, ⟨b, f, j, n⟩, ⟨c, g, k, o⟩, ⟨d, h, l, p⟩⟩ =>
    a * det3 f g h j k l n o p - b * det3 e g h i k l m o p +
      c * det3 e f h i j l m n p - d * det3 e f g i j k m n o

/-- Adjugate (transposed cofactor matrix) of a 4x4 matrix, written out as the
library's cofactor-based inverse does. -/
def adj4 (M : Mat4Q) : Mat4Q :=
  match M with
  | ⟨⟨a, e, i, m⟩, ⟨b, f, j, n⟩, ⟨c, g, k, o⟩, ⟨d, h, l, p⟩⟩ =>
    ⟨⟨det3 f g h j k l n o p, -det3 e g h i k l m o p,
      det3 e f h i j l m n p, -det3 e f g i j k m n o⟩,
     ⟨-det3 b c d j k l n o p, det3 a c d i k l m o p,
      -det3 a b d i j l m n p, det3 a b c i j k m n o⟩,
     ⟨det3 b c d f g h n o p, -det3 a c d e g h m o p,
      det3 a b d e f h m n p, -det3 a b c e f g m n o⟩,
     ⟨-det3 b c d f g h j k l, det3 a c d e g h i k l,
      -det3 a b d e f h i j l, det3 a b c e f g i j k⟩⟩

/-- Modelled from the spec: Mat4::inverse — adjugate over determinant. -/
def minv (M : Mat4Q) : Mat4Q := smulM (det4 M)⁻¹ (adj4 M)

/-- Modelled from the spec: Mat4::operator*(Vec3) — transform a point:
homogenize with w = 1, multiply, then divide by the resulting w
(Vec4::project). -/
def xformPt (M : Mat4Q) (p : Vec3Q) : Vec3Q :=
  let r := mulV4 M ⟨p.x, p.y, p.z, 1⟩
  ⟨r.x / r.w, r.y / r.w, r.z / r.w⟩

def vneg3 (v : Vec3Q) : Vec3Q := ⟨-v.x, -v.y, -v.z⟩

def dot3 (a b : Vec3Q) : ℚ := a.x * b.x + a.y * b.y + a.z * b.z

def dot4 (a b : Vec4Q) : ℚ := a.x * b.x + a.y * b.y + a.z * b.z + a.w * b.w

/-- The vector b = -(Q[3][0], Q[3][1], Q[3][2]) read by the Edge_Record
constructor (column 3, rows 0..2, negated). -/
def bvecOf (Q : Mat4Q) : Vec3Q := vneg3 ⟨Q.c3.x, Q.c3.y, Q.c3.z⟩

/-- The optimal position the Edge_Record constructor computes
(meshedit.cpp line 848): the full 4x4 inverse applied to b as a point. -/
def optOf (Q : Mat4Q) : Vec3Q := xformPt (minv Q) (bvecOf Q)

/-- The cost the Edge_Record constructor computes (meshedit.cpp line 850):
dot(optimal, Q * optimal) with the point-transform convention. -/
def costOf (Q : Mat4Q) : ℚ := dot3 (optOf Q) (xformPt Q (optOf Q))

/-- The Edge_Record of meshedit.cpp lines 829-855. -/
structure ERec where
  edge : Nat
  optimal : Vec3Q
  cost : ℚ
deriving DecidableEq, Repr

/-- Default-constructed Edge_Record (edge, optimal and cost left at defaults). -/
def dERec : ERec := ⟨0, ⟨0, 0, 0⟩, 0⟩

/-- Edge_Record(vertex_quadrics, e): sum the two endpoint quadrics (missing map
entries default-construct to the Mat4 default), then compute optimal and cost. -/
def mkERec (vq : List (Nat × Mat4Q)) (m : Mesh) (e : Nat) : ERec :=
  let q1 := (lookupA (getHE m (erep m e)).vertex vq).getD mat4Id
  let q2 := (lookupA (getHE m (getHE m (erep m e)).twin).vertex vq).getD mat4Id
  let q := madd q1 q2
  ⟨e, optOf q, costOf q⟩

/-- operator< on Edge_Record (meshedit.cpp lines 858-865): order by cost, and
break cost ties by the memory address of the edge element (&*e1 < &*e2), here
modelled by an explicit address assignment for the run. -/
def ltER (addr : Nat → Nat) (r1 r2 : ERec) : Bool :=
  if r1.cost ≠ r2.cost then decide (r1.cost < r2.cost)
  else decide (addr r1.edge < addr r2.edge)

/-- What the SPEC says the optimal position is: the solution of the 3x3 linear
system derived from the quadric's upper-left 3x3 block (minimizing the quadric
form), by Cramer's rule.  This is the comparison definition written from the
spec's words, not from the source. -/
def specOptimal (Q : Mat4Q) : Vec3Q :=
  let a := Q.c0.x
  let b := Q.c1.x
  let c := Q.c2.x
  let d := Q.c0.y
  let e := Q.c1.y
  let f := Q.c2.y
  let g := Q.c0.z
  let h := Q.c1.z
  let i := Q.c2.z
  let r1 := -Q.c3.x
  let r2 := -Q.c3.y
  let r3 := -Q.c3.z
  let dd := det3 a b c d e f g h i
  ⟨det3 r1 b c r2 e f r3 h i / dd, det3 a r1 c d r2 f g r3 i / dd,
   det3 a b r1 d e r2 g h r3 / dd⟩

/-- The quadric error form (x,1)^T Q (x,1), as the spec words the cost. -/
def quadForm (Q : Mat4Q) (p : Vec3Q) : ℚ :=
  dot4 ⟨p.x, p.y, p.z, 1⟩ (mulV4 Q ⟨p.x, p.y, p.z, 1⟩)

/-- std::set insert for the removable priority queue: keep the list sorted by
the comparator; an equivalent element (neither less nor greater) is not
inserted again. -/
def pqInsert (addr : Nat → Nat) : List ERec → ERec → List ERec
  | [], r => [r]
  | x :: t, r =>
    if ltER addr r x then r :: x :: t
    else if ltER addr x r then x :: pqInsert addr t r
    else x :: t

/-- std::set erase-by-value: remove the element equivalent to r, if present. -/
def pqRemove (addr : Nat → Nat) : List ERec → ERec → List ERec
  | [], _ => []
  | x :: t, r =>
    if ltER addr r x || ltER addr x r then x :: pqRemove addr t r else t

/-- Insert-or-assign, as unordered_map operator[] assignment behaves. -/
def upsertA {α : Type} (k : Nat) (v : α) (l : List (Nat × α)) : List (Nat × α) :=
  if (lookupA k l).isSome then updateA k (fun _ => v) l else (k, v) :: l

/-- The source's do-while fan walk around a vertex (he = he->twin()->next()),
folding an action over the visited half-edges, with fuel. -/
def fanFold {α : Type} (m : Mesh) (f : Nat → α → α) (start : Nat) : Nat → Nat → α → α
  | _, 0, acc => acc
  | cur, fuel + 1, acc =>
    let acc1 := f cur acc
    let cur1 := (getHE m (getHE m cur).twin).next
    if cur1 = start then acc1 else fanFold m f start cur1 fuel acc1

/-- One decimation-loop state step of simplify (meshedit.cpp lines 995-1030):
pop the best record, drop the stale records around both endpoints, collapse the
edge (erase-committing), give the new vertex the summed quadric and push fresh
records for its incident edges.  Fuel bounds the while loop; the unchecked
.value() of the source is modelled with a default on the (never-taken) none
branch. -/
def simpLoop (addr : Nat → Nat) (target : Nat) :
    Nat → Mesh → List (Nat × Mat4Q) → List (Nat × ERec) → List ERec → Bool × Mesh
  | 0, m, _, _, _ => (true, m)
  | fuel + 1, m, vq, recs, q =>
    if h : target < m.edges.length then
      let best := q.headD dERec
      let q1 := q.tail
      let e := best.edge
      let he := erep m e
      let v1 := (getHE m he).vertex
      let v2 := (getHE m (getHE m he).twin).vertex
      let qsum := madd ((lookupA v1 vq).getD mat4Id) ((lookupA v2 vq).getD mat4Id)
      let vq1 := eraseA v1 (eraseA v2 vq)
      let st1 := fanFold m
        (fun h2 st =>
          let er := (lookupA (getHE m h2).edge st.1).getD dERec
          ((eraseA (getHE m h2).edge st.1 : List (Nat × ERec)), pqRemove addr st.2 er))
        (vrep m v1) (vrep m v1) m.hes.length ((recs, q1))
      let st2 := fanFold m
        (fun h2 st =>
          let er := (lookupA (getHE m h2).edge st.1).getD dERec
          ((eraseA (getHE m h2).edge st.1 : List (Nat × ERec)), pqRemove addr st.2 er))
        (vrep m v2) (vrep m v2) m.hes.length st1
      let res := collapse_edge m e
      let m2 := res.2
      let nv := res.1.getD 0
      let vq2 := upsertA nv qsum vq1
      let st3 := fanFold m2
        (fun h2 st =>
          let er := mkERec vq2 m2 (getHE m2 h2).edge
          let recs2 := upsertA (getHE m2 h2).edge er st.1
          (recs2, pqInsert addr st.2 ((lookupA (getHE m2 h2).edge recs2).getD dERec)))
        (vrep m2 nv) (vrep m2 nv) m2.hes.length st2
      simpLoop addr target fuel m2 vq2 st3.1 st3.2
    else (true, m)

/-- Halfedge_Mesh::simplify (meshedit.cpp lines 949-1039): refuse below three
edges; otherwise build per-face plane quadrics (the face normal, a float
computation in the external library, is a parameter nrm of the embedding),
per-vertex summed quadrics, the edge records and the removable queue, then run
the decimation loop toward a target of three quarters of the edge count. -/
def simplify (nrm : Nat → Vec3Q) (addr : Nat → Nat) (m : Mesh) : Bool × Mesh :=
  if m.edges.length < 3 then (false, m) else
  let fq : List (Nat × Mat4Q) := m.faces.map fun p =>
    let normal := nrm p.1
    let point := vpos m (getHE m (frep m p.1)).vertex
    let d := -(dot3 normal point)
    (p.1, outer4 ⟨point.x, point.y, point.z, 1⟩ ⟨normal.x, normal.y, normal.z, d⟩)
  let vq : List (Nat × Mat4Q) := m.verts.map fun p =>
    (p.1, fanFold m (fun h acc => madd acc ((lookupA (getHE m h).face fq).getD mat4Id))
      p.2.rep p.2.rep m.hes.length mat4Id)
  let recs : List (Nat × ERec) := m.edges.map fun p => (p.1, mkERec vq m p.1)
  let q : List ERec := m.edges.foldl (fun q p => pqInsert addr q (mkERec vq m p.1)) []
  let target := m.edges.length * 3 / 4
  simpLoop addr target m.edges.length m vq recs q


/-- A single triangle with its virtual boundary face (flag true): half-edges
51-53 interior, 54-56 on the boundary loop; every edge is a boundary edge. -/
def triMesh : Mesh :=
  { hes :=
      [(51, ⟨52, 54, 61, 81, 71⟩), (52, ⟨53, 55, 62, 82, 71⟩), (53, ⟨51, 56, 63, 83, 71⟩),
       (54, ⟨56, 51, 62, 81, 72⟩), (55, ⟨54, 52, 63, 82, 72⟩), (56, ⟨55, 53, 61, 83, 72⟩)],
    verts := [(61, ⟨51, ⟨0, 0, 0⟩⟩), (62, ⟨52, ⟨1, 0, 0⟩⟩), (63, ⟨53, ⟨0, 1, 0⟩⟩)],
    edges := [(81, 51), (82, 52), (83, 53)],
    faces := [(71, ⟨51, false⟩), (72, ⟨54, true⟩)],
    fresh := 100 }

/-- A degenerate state with a single live edge, used to exercise the too-few-edges
refusals of collapse_edge and simplify. -/
def oneEdgeMesh : Mesh :=
  { hes := [], verts := [], edges := [(1, 0)], faces := [], fresh := 10 }

/-- The concrete combined quadric used to separate the source's Edge_Record
computation from the spec's 3x3-system description (symmetric, invertible). -/
def qC8 : Mat4Q := ⟨⟨2, 0, 0, 1⟩, ⟨0, 2, 0, 0⟩, ⟨0, 0, 2, 0⟩, ⟨1, 0, 0, 2⟩⟩

/-- A vertex-quadrics map putting qC8 on vertex 21 and the zero quadric on
vertex 22, the endpoints of tetra edge 31. -/
def vqC8 : List (Nat × Mat4Q) := [(21, qC8), (22, mat4Zero)]

/-! Association-list lemmas. -/

theorem lookupA_updateA_self {α : Type} (k : Nat) (f : α → α) (l : List (Nat × α)) :
    lookupA k (updateA k f l) = (lookupA k l).map f := by
  induction l with
  | nil => rfl
  | cons p t ih =>
    obtain ⟨k2, v⟩ := p
    by_cases h : k = k2
    · simp [updateA, lookupA, h]
    · simp [updateA, lookupA, h, ih]

theorem lookupA_updateA_ne {α : Type} {k k2 : Nat} (f : α → α) (l : List (Nat × α))
    (h : k ≠ k2) : lookupA k (updateA k2 f l) = lookupA k l := by
  induction l with
  | nil => rfl
  | cons p t ih =>
    obtain ⟨k3, v⟩ := p
    by_cases h2 : k2 = k3
    · subst h2
      simp [updateA, lookupA, h]
    · by_cases h3 : k = k3
      · simp [updateA, lookupA, h2, h3]
      · simp [updateA, lookupA, h2, h3, ih]

theorem length_updateA {α : Type} (k : Nat) (f : α → α) (l : List (Nat × α)) :
    (updateA k f l).length = l.length := by
  induction l with
  | nil => rfl
  | cons p t ih =>
    obtain ⟨k2, v⟩ := p
    by_cases h : k = k2
    · simp [updateA, h]
    · simp [updateA, h, ih]

theorem isSome_lookupA_updateA {α : Type} (k k2 : Nat) (f : α → α) (l : List (Nat × α)) :
    (lookupA k (updateA k2 f l)).isSome = (lookupA k l).isSome := by
  by_cases h : k = k2
  · subst h
    rw [lookupA_updateA_self]
    cases lookupA k l <;> rfl
  · rw [lookupA_updateA_ne f l h]

theorem lookupA_eraseA_ne {α : Type} {k k2 : Nat} (l : List (Nat × α))
    (h : k ≠ k2) : lookupA k (eraseA k2 l) = lookupA k l := by
  induction l with
  | nil => rfl
  | cons p t ih =>
    obtain ⟨k3, v⟩ := p
    by_cases h2 : k2 = k3
    · subst h2
      simp [eraseA, lookupA, h]
    · by_cases h3 : k = k3
      · simp [eraseA, lookupA, h2, h3]
      · simp [eraseA, lookupA, h2, h3, ih]

theorem length_eraseA {α : Type} {k : Nat} {l : List (Nat × α)}
    (h : (lookupA k l).isSome) : (eraseA k l).length + 1 = l.length := by
  induction l with
  | nil => simp [lookupA] at h
  | cons p t ih =>
    obtain ⟨k2, v⟩ := p
    by_cases h2 : k = k2
    · simp [eraseA, h2]
    · simp [lookupA, h2] at h
      simp [eraseA, h2]
      exact ih h

theorem isSome_lookupA_eraseA {α : Type} {k k2 : Nat} (l : List (Nat × α))
    (h : k ≠ k2) : (lookupA k (eraseA k2 l)).isSome = (lookupA k l).isSome := by
  rw [lookupA_eraseA_ne l h]

theorem one_le_length_of_lookupA {α : Type} {k : Nat} {l : List (Nat × α)}
    (h : (lookupA k l).isSome) : 1 ≤ l.length := by
  cases l with
  | nil => simp [lookupA] at h
  | cons p t => simp


theorem lt_of_keysLT {α : Type} {n k : Nat} {l : List (Nat × α)} {v : α}
    (hb : keysLT n l = true) (hl : lookupA k l = some v) : k < n := by
  induction l with
  | nil => simp [lookupA] at hl
  | cons p t ih =>
    obtain ⟨k2, v2⟩ := p
    simp [keysLT] at hb
    by_cases h : k = k2
    · subst h
      exact hb.1
    · simp [lookupA, h] at hl
      exact ih (by simp [keysLT]; exact hb.2) hl


theorem lookupA_cons_ne {α : Type} {k k2 : Nat} (v : α) (l : List (Nat × α))
    (h : k ≠ k2) : lookupA k ((k2, v) :: l) = lookupA k l := by
  simp [lookupA, h]

theorem length_after_split_faces {α : Type} (l : List (Nat × α)) (f1 f2 n : Nat)
    (g1 g2 g3 g4 : α → α) (v1 v2 v3 v4 : α)
    (hf1 : (lookupA f1 l).isSome) (hf2 : (lookupA f2 l).isSome) (hne : f2 ≠ f1)
    (hlt1 : f1 < n) (hlt2 : f2 < n) :
    (eraseA f2 (eraseA f1 (updateA (n + 14) g4 (updateA (n + 13) g3 (updateA (n + 12) g2
      (updateA (n + 11) g1 ((n + 14, v4) :: (n + 13, v3) :: (n + 12, v2) :: (n + 11, v1) ::
        l))))))).length = l.length + 2 := by
  have ne1 : f1 ≠ n + 14 := by omega
  have ne2 : f1 ≠ n + 13 := by omega
  have ne3 : f1 ≠ n + 12 := by omega
  have ne4 : f1 ≠ n + 11 := by omega
  have ne5 : f2 ≠ n + 14 := by omega
  have ne6 : f2 ≠ n + 13 := by omega
  have ne7 : f2 ≠ n + 12 := by omega
  have ne8 : f2 ≠ n + 11 := by omega
  have hL1 : lookupA f1 (updateA (n + 14) g4 (updateA (n + 13) g3 (updateA (n + 12) g2
      (updateA (n + 11) g1 ((n + 14, v4) :: (n + 13, v3) :: (n + 12, v2) :: (n + 11, v1) ::
        l))))) = lookupA f1 l := by
    rw [lookupA_updateA_ne _ _ ne1, lookupA_updateA_ne _ _ ne2, lookupA_updateA_ne _ _ ne3,
      lookupA_updateA_ne _ _ ne4, lookupA_cons_ne _ _ ne1, lookupA_cons_ne _ _ ne2,
      lookupA_cons_ne _ _ ne3, lookupA_cons_ne _ _ ne4]
  have hL2 : lookupA f2 (eraseA f1 (updateA (n + 14) g4 (updateA (n + 13) g3
      (updateA (n + 12) g2 (updateA (n + 11) g1 ((n + 14, v4) :: (n + 13, v3) ::
        (n + 12, v2) :: (n + 11, v1) :: l)))))) = lookupA f2 l := by
    rw [lookupA_eraseA_ne _ hne, lookupA_updateA_ne _ _ ne5, lookupA_updateA_ne _ _ ne6,
      lookupA_updateA_ne _ _ ne7, lookupA_updateA_ne _ _ ne8, lookupA_cons_ne _ _ ne5,
      lookupA_cons_ne _ _ ne6, lookupA_cons_ne _ _ ne7, lookupA_cons_ne _ _ ne8]
  have e1 := length_eraseA (l := updateA (n + 14) g4 (updateA (n + 13) g3 (updateA (n + 12) g2
      (updateA (n + 11) g1 ((n + 14, v4) :: (n + 13, v3) :: (n + 12, v2) :: (n + 11, v1) ::
        l))))) (k := f1) (by rw [hL1]; exact hf1)
  have e2 := length_eraseA (k := f2) (by rw [hL2]; exact hf2)
  rw [length_updateA, length_updateA, length_updateA, length_updateA] at e1
  simp only [List.length_cons] at e1
  omega

theorem length_upd_upd_cons {α : Type} (l : List (Nat × α)) (k k1 k2 : Nat)
    (g1 g2 : α → α) (v : α) :
    (updateA k2 g2 (updateA k1 g1 ((k, v) :: l))).length = l.length + 1 := by
  rw [length_updateA, length_updateA, List.length_cons]

/-! Walk and loop helper lemmas. -/

theorem walkPrev_stop (m : Mesh) (t c fuel : Nat) (h : (getHE m c).next = t) :
    walkPrev m t c (fuel + 1) = c := by
  simp [walkPrev, h]

theorem walkPrev_tri (m : Mesh) (a b c fuel : Nat)
    (h1 : (getHE m a).next = b) (h2 : (getHE m b).next = c) (h3 : (getHE m c).next = a)
    (n1 : b ≠ a) (n2 : c ≠ a) :
    walkPrev m a a (fuel + 3) = c := by
  simp [walkPrev, h1, h2, h3, n1, n2]

theorem degLoop_tri (m : Mesh) (a b c fuel acc : Nat)
    (h1 : (getHE m a).next = b) (h2 : (getHE m b).next = c) (h3 : (getHE m c).next = a)
    (n1 : b ≠ a) (n2 : c ≠ a) :
    degLoop m a a acc (fuel + 3) = acc + 3 := by
  simp [degLoop, h1, h2, h3, n1, n2]

theorem getHE_setVtxH_next (m : Mesh) (k v h : Nat) :
    (getHE (setVtxH m k v) h).next = (getHE m h).next := by
  by_cases hh : h = k
  · subst hh
    simp only [setVtxH, getHE, lookupA_updateA_self]
    cases lookupA h m.hes <;> rfl
  · simp only [setVtxH, getHE, lookupA_updateA_ne _ _ hh]

theorem getHE_setVtxH_twin (m : Mesh) (k v h : Nat) :
    (getHE (setVtxH m k v) h).twin = (getHE m h).twin := by
  by_cases hh : h = k
  · subst hh
    simp only [setVtxH, getHE, lookupA_updateA_self]
    cases lookupA h m.hes <;> rfl
  · simp only [setVtxH, getHE, lookupA_updateA_ne _ _ hh]

theorem getHE_setVtxH_edge (m : Mesh) (k v h : Nat) :
    (getHE (setVtxH m k v) h).edge = (getHE m h).edge := by
  by_cases hh : h = k
  · subst hh
    simp only [setVtxH, getHE, lookupA_updateA_self]
    cases lookupA h m.hes <;> rfl
  · simp only [setVtxH, getHE, lookupA_updateA_ne _ _ hh]

theorem getHE_setVtxH_face (m : Mesh) (k v h : Nat) :
    (getHE (setVtxH m k v) h).face = (getHE m h).face := by
  by_cases hh : h = k
  · subst hh
    simp only [setVtxH, getHE, lookupA_updateA_self]
    cases lookupA h m.hes <;> rfl
  · simp only [setVtxH, getHE, lookupA_updateA_ne _ _ hh]

theorem retargetFan_getHE_next (stop nv : Nat) :
    ∀ (fuel cur : Nat) (m : Mesh) (h : Nat),
      (getHE (retargetFan stop nv fuel cur m) h).next = (getHE m h).next := by
  intro fuel
  induction fuel with
  | zero => intro cur m h; rfl
  | succ f ih =>
    intro cur m h
    by_cases hc : cur = stop
    · simp [retargetFan, hc]
    · simp only [retargetFan, hc, if_false]
      rw [ih, getHE_setVtxH_next]

theorem retargetFan_getHE_twin (stop nv : Nat) :
    ∀ (fuel cur : Nat) (m : Mesh) (h : Nat),
      (getHE (retargetFan stop nv fuel cur m) h).twin = (getHE m h).twin := by
  intro fuel
  induction fuel with
  | zero => intro cur m h; rfl
  | succ f ih =>
    intro cur m h
    by_cases hc : cur = stop
    · simp [retargetFan, hc]
    · simp only [retargetFan, hc, if_false]
      rw [ih, getHE_setVtxH_twin]

theorem retargetFan_getHE_edge (stop nv : Nat) :
    ∀ (fuel cur : Nat) (m : Mesh) (h : Nat),
      (getHE (retargetFan stop nv fuel cur m) h).edge = (getHE m h).edge := by
  intro fuel
  induction fuel with
  | zero => intro cur m h; rfl
  | succ f ih =>
    intro cur m h
    by_cases hc : cur = stop
    · simp [retargetFan, hc]
    · simp only [retargetFan, hc, if_false]
      rw [ih, getHE_setVtxH_edge]

theorem retargetFan_getHE_face (stop nv : Nat) :
    ∀ (fuel cur : Nat) (m : Mesh) (h : Nat),
      (getHE (retargetFan stop nv fuel cur m) h).face = (getHE m h).face := by
  intro fuel
  induction fuel with
  | zero => intro cur m h; rfl
  | succ f ih =>
    intro cur m h
    by_cases hc : cur = stop
    · simp [retargetFan, hc]
    · simp only [retargetFan, hc, if_false]
      rw [ih, getHE_setVtxH_face]

theorem retargetFan_verts (stop nv : Nat) :
    ∀ (fuel cur : Nat) (m : Mesh), (retargetFan stop nv fuel cur m).verts = m.verts := by
  intro fuel
  induction fuel with
  | zero => intro cur m; rfl
  | succ f ih =>
    intro cur m
    by_cases hc : cur = stop
    · simp [retargetFan, hc]
    · simp only [retargetFan, hc, if_false]
      rw [ih]
      rfl

theorem retargetFan_edges (stop nv : Nat) :
    ∀ (fuel cur : Nat) (m : Mesh), (retargetFan stop nv fuel cur m).edges = m.edges := by
  intro fuel
  induction fuel with
  | zero => intro cur m; rfl
  | succ f ih =>
    intro cur m
    by_cases hc : cur = stop
    · simp [retargetFan, hc]
    · simp only [retargetFan, hc, if_false]
      rw [ih]
      rfl

theorem retargetFan_faces (stop nv : Nat) :
    ∀ (fuel cur : Nat) (m : Mesh), (retargetFan stop nv fuel cur m).faces = m.faces := by
  intro fuel
  induction fuel with
  | zero => intro cur m; rfl
  | succ f ih =>
    intro cur m
    by_cases hc : cur = stop
    · simp [retargetFan, hc]
    · simp only [retargetFan, hc, if_false]
      rw [ih]
      rfl

theorem retargetFan_fresh (stop nv : Nat) :
    ∀ (fuel cur : Nat) (m : Mesh), (retargetFan stop nv fuel cur m).fresh = m.fresh := by
  intro fuel
  induction fuel with
  | zero => intro cur m; rfl
  | succ f ih =>
    intro cur m
    by_cases hc : cur = stop
    · simp [retargetFan, hc]
    · simp only [retargetFan, hc, if_false]
      rw [ih]
      rfl

theorem retargetFan_hes_length (stop nv : Nat) :
    ∀ (fuel cur : Nat) (m : Mesh),
      (retargetFan stop nv fuel cur m).hes.length = m.hes.length := by
  intro fuel
  induction fuel with
  | zero => intro cur m; rfl
  | succ f ih =>
    intro cur m
    by_cases hc : cur = stop
    · simp [retargetFan, hc]
    · simp only [retargetFan, hc, if_false]
      rw [ih]
      simp [setVtxH, length_updateA]

theorem simpLoop_fst (addr : Nat → Nat) (target : Nat) :
    ∀ (fuel : Nat) (m : Mesh) (vq : List (Nat × Mat4Q)) (recs : List (Nat × ERec))
      (q : List ERec), (simpLoop addr target fuel m vq recs q).1 = true := by
  intro fuel
  induction fuel with
  | zero => intro m vq recs q; rfl
  | succ f ih =>
    intro m vq recs q
    by_cases hc : target < m.edges.length
    · simp only [simpLoop, hc, dif_pos]
      exact ih _ _ _ _
    · simp [simpLoop, hc]

/-! Matrix algebra lemmas for the quadric claims. -/

theorem mulV4_v4s (M : Mat4Q) (s : ℚ) (v : Vec4Q) :
    mulV4 M (v4s s v) = v4s s (mulV4 M v) := by
  obtain ⟨⟨a, e, i, m2⟩, ⟨b, f, j, n⟩, ⟨c, g, k, o⟩, ⟨d, h, l, p⟩⟩ := M
  obtain ⟨vx, vy, vz, vw⟩ := v
  simp only [mulV4, v4s, v4add, Vec4Q.mk.injEq]
  refine ⟨by ring, by ring, by ring, by ring⟩

theorem mulV4_smulM (s : ℚ) (N : Mat4Q) (v : Vec4Q) :
    mulV4 (smulM s N) v = v4s s (mulV4 N v) := by
  obtain ⟨⟨a, e, i, m2⟩, ⟨b, f, j, n⟩, ⟨c, g, k, o⟩, ⟨d, h, l, p⟩⟩ := N
  obtain ⟨vx, vy, vz, vw⟩ := v
  simp only [mulV4, smulM, v4s, v4add, Vec4Q.mk.injEq]
  refine ⟨by ring, by ring, by ring, by ring⟩

theorem mulV4_adj4 (M : Mat4Q) (v : Vec4Q) :
    mulV4 M (mulV4 (adj4 M) v) = v4s (det4 M) v := by
  obtain ⟨⟨a, e, i, m2⟩, ⟨b, f, j, n⟩, ⟨c, g, k, o⟩, ⟨d, h, l, p⟩⟩ := M
  obtain ⟨vx, vy, vz, vw⟩ := v
  simp only [mulV4, adj4, det4, det3, v4s, v4add, Vec4Q.mk.injEq]
  refine ⟨by ring, by ring, by ring, by ring⟩

theorem mulV4_minv (M : Mat4Q) (v : Vec4Q) (hd : det4 M ≠ 0) :
    mulV4 M (mulV4 (minv M) v) = v := by
  rw [minv, mulV4_smulM, mulV4_v4s, mulV4_adj4]
  obtain ⟨vx, vy, vz, vw⟩ := v
  simp only [v4s, Vec4Q.mk.injEq]
  refine ⟨?_, ?_, ?_, ?_⟩ <;> field_simp

/-! Lemmas about the collapse side surgeries. -/

theorem getHE_eraseHE_ne (m : Mesh) (k h : Nat) (hh : h ≠ k) :
    getHE (eraseHE m k) h = getHE m h := by
  simp only [getHE, eraseHE, lookupA_eraseA_ne _ hh]

theorem getHE_setTwinH_next (m : Mesh) (k v h : Nat) :
    (getHE (setTwinH m k v) h).next = (getHE m h).next := by
  by_cases hh : h = k
  · subst hh
    simp only [setTwinH, getHE, lookupA_updateA_self]
    cases lookupA h m.hes <;> rfl
  · simp only [setTwinH, getHE, lookupA_updateA_ne _ _ hh]

theorem getHE_setTwinH_face (m : Mesh) (k v h : Nat) :
    (getHE (setTwinH m k v) h).face = (getHE m h).face := by
  by_cases hh : h = k
  · subst hh
    simp only [setTwinH, getHE, lookupA_updateA_self]
    cases lookupA h m.hes <;> rfl
  · simp only [setTwinH, getHE, lookupA_updateA_ne _ _ hh]

theorem getHE_setTwinH_edge (m : Mesh) (k v h : Nat) :
    (getHE (setTwinH m k v) h).edge = (getHE m h).edge := by
  by_cases hh : h = k
  · subst hh
    simp only [setTwinH, getHE, lookupA_updateA_self]
    cases lookupA h m.hes <;> rfl
  · simp only [setTwinH, getHE, lookupA_updateA_ne _ _ hh]

theorem getHE_setEdgH_next (m : Mesh) (k v h : Nat) :
    (getHE (setEdgH m k v) h).next = (getHE m h).next := by
  by_cases hh : h = k
  · subst hh
    simp only [setEdgH, getHE, lookupA_updateA_self]
    cases lookupA h m.hes <;> rfl
  · simp only [setEdgH, getHE, lookupA_updateA_ne _ _ hh]

theorem getHE_setEdgH_face (m : Mesh) (k v h : Nat) :
    (getHE (setEdgH m k v) h).face = (getHE m h).face := by
  by_cases hh : h = k
  · subst hh
    simp only [setEdgH, getHE, lookupA_updateA_self]
    cases lookupA h m.hes <;> rfl
  · simp only [setEdgH, getHE, lookupA_updateA_ne _ _ hh]

theorem getHE_setEdgH_edge_ne (m : Mesh) (k v h : Nat) (hh : h ≠ k) :
    (getHE (setEdgH m k v) h).edge = (getHE m h).edge := by
  simp only [setEdgH, getHE, lookupA_updateA_ne _ _ hh]

theorem retargetFan_lookupA_isSome (stop nv : Nat) :
    ∀ (fuel cur : Nat) (m : Mesh) (h : Nat),
      (lookupA h (retargetFan stop nv fuel cur m).hes).isSome = (lookupA h m.hes).isSome := by
  intro fuel
  induction fuel with
  | zero => intro cur m h; rfl
  | succ f ih =>
    intro cur m h
    by_cases hc : cur = stop
    · simp [retargetFan, hc]
    · simp only [retargetFan, hc, if_false]
      rw [ih]
      simp [setVtxH, isSome_lookupA_updateA]

theorem collapseSideA_spec (mX : Mesh) (heX hnnX nv : Nat)
    (hdeg : faceDegree mX (getHE mX heX).face = 3)
    (hp1 : (lookupA ((getHE mX heX).next) mX.hes).isSome)
    (hp2 : (lookupA hnnX mX.hes).isSome)
    (hne : (getHE mX heX).next ≠ hnnX) :
    (collapseSideA mX heX hnnX nv).edges =
      eraseA ((getHE mX hnnX).edge)
        (updateA ((getHE mX (getHE mX heX).next).edge)
          (fun _ => (getHE mX (getHE mX heX).next).twin) mX.edges) ∧
    (collapseSideA mX heX hnnX nv).faces = eraseA ((getHE mX heX).face) mX.faces ∧
    (collapseSideA mX heX hnnX nv).verts.length = mX.verts.length ∧
    (∀ k, (lookupA k (collapseSideA mX heX hnnX nv).verts).isSome =
      (lookupA k mX.verts).isSome) ∧
    (collapseSideA mX heX hnnX nv).hes.length + 2 = mX.hes.length ∧
    (∀ h, h ≠ (getHE mX heX).next → h ≠ hnnX →
      ((getHE (collapseSideA mX heX hnnX nv) h).next = (getHE mX h).next ∧
       (getHE (collapseSideA mX heX hnnX nv) h).face = (getHE mX h).face ∧
       (h ≠ (getHE mX hnnX).twin →
         (getHE (collapseSideA mX heX hnnX nv) h).edge = (getHE mX h).edge))) := by
  unfold collapseSideA
  rw [if_pos hdeg]
  refine ⟨rfl, ?_, ?_, ?_, ?_, ?_⟩
  · show eraseA ((getHE (setEdgH (setTwinH (setTwinH mX ((getHE mX (getHE mX heX).next).twin)
        ((getHE mX hnnX).twin)) ((getHE mX hnnX).twin) ((getHE mX (getHE mX heX).next).twin))
        ((getHE mX hnnX).twin) ((getHE mX (getHE mX heX).next).edge)) heX).face) mX.faces =
      eraseA ((getHE mX heX).face) mX.faces
    rw [getHE_setEdgH_face, getHE_setTwinH_face, getHE_setTwinH_face]
  · show (updateA nv _ (updateA _ _ mX.verts)).length = mX.verts.length
    rw [length_updateA, length_updateA]
  · intro k
    show (lookupA k (updateA nv _ (updateA _ _ mX.verts))).isSome = (lookupA k mX.verts).isSome
    rw [isSome_lookupA_updateA, isSome_lookupA_updateA]
  · show (eraseA hnnX (eraseA ((getHE mX heX).next) (updateA _ _ (updateA _ _
      (updateA _ _ mX.hes))))).length + 2 = mX.hes.length
    have hq1 : (lookupA ((getHE mX heX).next) (updateA ((getHE mX hnnX).twin)
        (fun r => { r with edge := (getHE mX (getHE mX heX).next).edge })
        (updateA ((getHE mX hnnX).twin)
          (fun r => { r with twin := (getHE mX (getHE mX heX).next).twin })
          (updateA ((getHE mX (getHE mX heX).next).twin)
            (fun r => { r with twin := (getHE mX hnnX).twin }) mX.hes)))).isSome := by
      rw [isSome_lookupA_updateA, isSome_lookupA_updateA, isSome_lookupA_updateA]
      exact hp1
    have e1 := length_eraseA hq1
    rw [length_updateA, length_updateA, length_updateA] at e1
    have hq2 : (lookupA hnnX (eraseA ((getHE mX heX).next) (updateA ((getHE mX hnnX).twin)
        (fun r => { r with edge := (getHE mX (getHE mX heX).next).edge })
        (updateA ((getHE mX hnnX).twin)
          (fun r => { r with twin := (getHE mX (getHE mX heX).next).twin })
          (updateA ((getHE mX (getHE mX heX).next).twin)
            (fun r => { r with twin := (getHE mX hnnX).twin }) mX.hes))))).isSome := by
      rw [isSome_lookupA_eraseA _ (Ne.symm hne), isSome_lookupA_updateA, isSome_lookupA_updateA,
        isSome_lookupA_updateA]
      exact hp2
    have e2 := length_eraseA hq2
    omega
  · intro h hne1 hne2
    refine ⟨?_, ?_, ?_⟩
    · show (getHE (eraseHE (eraseHE (eraseE (eraseF (setERep (setEdgH (setTwinH (setTwinH mX
          ((getHE mX (getHE mX heX).next).twin) ((getHE mX hnnX).twin)) ((getHE mX hnnX).twin)
          ((getHE mX (getHE mX heX).next).twin)) ((getHE mX hnnX).twin)
          ((getHE mX (getHE mX heX).next).edge)) _ _) _) _) ((getHE mX heX).next)) hnnX) h).next =
        (getHE mX h).next
      rw [getHE_eraseHE_ne _ _ _ hne2, getHE_eraseHE_ne _ _ _ hne1]
      show (getHE (setEdgH (setTwinH (setTwinH mX _ _) _ _) _ _) h).next = (getHE mX h).next
      rw [getHE_setEdgH_next, getHE_setTwinH_next, getHE_setTwinH_next]
    · show (getHE (eraseHE (eraseHE (eraseE (eraseF (setERep (setEdgH (setTwinH (setTwinH mX
          ((getHE mX (getHE mX heX).next).twin) ((getHE mX hnnX).twin)) ((getHE mX hnnX).twin)
          ((getHE mX (getHE mX heX).next).twin)) ((getHE mX hnnX).twin)
          ((getHE mX (getHE mX heX).next).edge)) _ _) _) _) ((getHE mX heX).next)) hnnX) h).face =
        (getHE mX h).face
      rw [getHE_eraseHE_ne _ _ _ hne2, getHE_eraseHE_ne _ _ _ hne1]
      show (getHE (setEdgH (setTwinH (setTwinH mX _ _) _ _) _ _) h).face = (getHE mX h).face
      rw [getHE_setEdgH_face, getHE_setTwinH_face, getHE_setTwinH_face]
    · intro hne3
      show (getHE (eraseHE (eraseHE (eraseE (eraseF (setERep (setEdgH (setTwinH (setTwinH mX
          ((getHE mX (getHE mX heX).next).twin) ((getHE mX hnnX).twin)) ((getHE mX hnnX).twin)
          ((getHE mX (getHE mX heX).next).twin)) ((getHE mX hnnX).twin)
          ((getHE mX (getHE mX heX).next).edge)) _ _) _) _) ((getHE mX heX).next)) hnnX) h).edge =
        (getHE mX h).edge
      rw [getHE_eraseHE_ne _ _ _ hne2, getHE_eraseHE_ne _ _ _ hne1]
      show (getHE (setEdgH (setTwinH (setTwinH mX _ _) _ _) ((getHE mX hnnX).twin) _) h).edge =
        (getHE mX h).edge
      rw [getHE_setEdgH_edge_ne _ _ _ _ hne3, getHE_setTwinH_edge, getHE_setTwinH_edge]

theorem collapseSideB_spec (mX : Mesh) (heX hnnX : Nat)
    (hdeg : faceDegree mX (getHE mX heX).face = 3) :
    (collapseSideB mX heX hnnX).edges =
      eraseA ((getHE mX hnnX).edge)
        (updateA ((getHE mX (getHE mX heX).next).edge)
          (fun _ => (getHE mX (getHE mX heX).next).twin) mX.edges) ∧
    (collapseSideB mX heX hnnX).verts.length = mX.verts.length ∧
    (∀ k, (lookupA k (collapseSideB mX heX hnnX).verts).isSome =
      (lookupA k mX.verts).isSome) := by
  unfold collapseSideB
  rw [if_pos hdeg]
  refine ⟨rfl, ?_, ?_⟩
  · show (updateA _ _ mX.verts).length = mX.verts.length
    rw [length_updateA]
  · intro k
    show (lookupA k (updateA _ _ mX.verts)).isSome = (lookupA k mX.verts).isSome
    rw [isSome_lookupA_updateA]


/-! Claim theorems. -/

/-- C1: the claim that every successful flip_edge, split_edge or collapse_edge
call preserves the half-edge invariants FAILS on the code: on a valid regular
tetrahedron, flip_edge on edge 31 succeeds but never reassigns the endpoint
vertices' representative half-edges, so vertex 21's representative no longer
originates at vertex 21 and the vertex-fan invariant is broken afterwards. -/
theorem flip_edge_breaks_invariants :
    meshValid tetra = true ∧
    (flip_edge tetra 31).1 = some 31 ∧
    invVerts (flip_edge tetra 31).2 = false ∧
    meshValid (flip_edge tetra 31).2 = false := by
  refine ⟨by decide, by decide, by decide, by decide⟩

/-- C3: erase_vertex in the source is an unimplemented stub: it refuses every
input and never returns the merged face its own documentation promises. -/
theorem erase_vertex_always_refuses (m : Mesh) (v : Nat) : erase_vertex m v = (none, m) :=
  rfl

/-- C4: the claim that the new midpoint vertex's representative half-edge lies
along the original split edge FAILS on the code: splitting tetra edge 31 (with
endpoints 21 and 22) succeeds and returns vertex 100, whose representative 105
is the freshly allocated half-edge nhn1 on the freshly allocated radiating edge
104 toward the opposite vertex 24 — while the two sub-edges of the original
edge are 101 (endpoint 22) and 102 (endpoint 21). -/
theorem split_edge_rep_misaligned :
    (split_edge tetra 31).1 = some 100 ∧
    vrep (split_edge tetra 31).2 100 = 105 ∧
    (getHE (split_edge tetra 31).2 105).vertex = 100 ∧
    (getHE (split_edge tetra 31).2 105).edge = 104 ∧
    (getHE (split_edge tetra 31).2 ((getHE (split_edge tetra 31).2 105).twin)).vertex = 24 ∧
    (getHE (split_edge tetra 31).2 (erep (split_edge tetra 31).2 101)).vertex = 22 ∧
    (getHE (split_edge tetra 31).2
      ((getHE (split_edge tetra 31).2 (erep (split_edge tetra 31).2 101)).twin)).vertex = 100 ∧
    (getHE (split_edge tetra 31).2 (erep (split_edge tetra 31).2 102)).vertex = 21 ∧
    (getHE (split_edge tetra 31).2
      ((getHE (split_edge tetra 31).2 (erep (split_edge tetra 31).2 102)).twin)).vertex = 100 ∧
    (104 : Nat) ≠ 101 ∧ (104 : Nat) ≠ 102 := by
  refine ⟨by decide, by decide, by decide, by decide, by decide, by decide, by decide,
    by decide, by decide, by decide, by decide⟩

/-- C6: splitting a live interior edge (neither side a boundary face, the two
adjacent faces distinct live faces) succeeds and increases the live face count
by exactly 2 (four faces allocated, two erased) and the live vertex count by
exactly 1 (the fresh midpoint vertex). -/
theorem split_edge_counts (m : Mesh) (e he1 he2 f1 f2 : Nat) (r1 r2 : HRec)
    (rf1 rf2 : FRec)
    (He : lookupA e m.edges = some he1)
    (H1 : lookupA he1 m.hes = some r1)
    (Ht : r1.twin = he2)
    (Hf1 : r1.face = f1)
    (H2 : lookupA he2 m.hes = some r2)
    (Hf2 : r2.face = f2)
    (HF1 : lookupA f1 m.faces = some rf1)
    (HB1 : rf1.bdry = false)
    (HF2 : lookupA f2 m.faces = some rf2)
    (HB2 : rf2.bdry = false)
    (Hne : f2 ≠ f1)
    (HW : keysLT m.fresh m.faces = true) :
    (split_edge m e).1 = some m.fresh ∧
    (split_edge m e).2.faces.length = m.faces.length + 2 ∧
    (split_edge m e).2.verts.length = m.verts.length + 1 := by
  have hf1e : (getHE m (erep m e)).face = f1 := by
    simp [getHE, erep, He, H1, Hf1]
  have hf2e : (getHE m (getHE m (erep m e)).twin).face = f2 := by
    simp [getHE, erep, He, H1, Ht, H2, Hf2]
  have hcond : ¬ ((heBoundary m (erep m e) || heBoundary m (getHE m (erep m e)).twin) = true) := by
    simp [heBoundary, fbdry, hf1e, hf2e, HF1, HF2, HB1, HB2]
  refine ⟨?_, ?_, ?_⟩
  · unfold split_edge
    rw [if_neg hcond]
    rfl
  · unfold split_edge
    rw [if_neg hcond]
    have hpf1 : (lookupA ((getHE m (erep m e)).face) m.faces).isSome := by
      rw [hf1e, HF1]; rfl
    have hpf2 : (lookupA ((getHE m (getHE m (erep m e)).twin).face) m.faces).isSome := by
      rw [hf2e, HF2]; rfl
    have hne2 : (getHE m (getHE m (erep m e)).twin).face ≠ (getHE m (erep m e)).face := by
      rw [hf1e, hf2e]; exact Hne
    have hlt1 : (getHE m (erep m e)).face < m.fresh := by
      rw [hf1e]; exact lt_of_keysLT HW HF1
    have hlt2 : (getHE m (getHE m (erep m e)).twin).face < m.fresh := by
      rw [hf2e]; exact lt_of_keysLT HW HF2
    exact length_after_split_faces m.faces ((getHE m (erep m e)).face)
      ((getHE m (getHE m (erep m e)).twin).face) m.fresh _ _ _ _ _ _ _ _ hpf1 hpf2 hne2 hlt1 hlt2
  · unfold split_edge
    rw [if_neg hcond]
    exact length_upd_upd_cons m.verts m.fresh _ _ _ _ _

/-- Witness for C6 on tetra edge 31: four faces become six, four vertices five. -/
theorem split_edge_counts_witness :
    (split_edge tetra 31).1 = some 100 ∧
    (split_edge tetra 31).2.faces.length = 6 ∧
    (split_edge tetra 31).2.verts.length = 5 := by
  obtain ⟨h1, h2, h3⟩ := split_edge_counts tetra 31 1 9 41 43 ⟨2, 9, 21, 31, 41⟩
    ⟨7, 1, 22, 31, 43⟩ ⟨1, false⟩ ⟨9, false⟩ (by decide) (by decide) (by decide) (by decide)
    (by decide) (by decide) (by decide) (by decide) (by decide) (by decide) (by decide) (by decide)
  exact ⟨h1, by rw [h2]; rfl, by rw [h3]; rfl⟩

set_option maxHeartbeats 2000000 in
/-- C5: collapsing a live edge of a manifold triangle configuration (both
adjacent faces are triangles, with the structural and distinctness hypotheses
of a manifold mesh) succeeds, decreases the live edge count by exactly 3 (the
edge itself and one spliced-away edge per triangular side) and decreases the
live vertex count by exactly 1 (one fresh midpoint vertex, two endpoints
erased). -/
theorem collapse_edge_counts (m : Mesh)
    (e he1 hn1 hnn1 he2 hn2 hnn2 v1 v2 w1 w2 f1 f2 eb ec ed ee tb tc td te : Nat)
    (vd1 vd2 : VRec) (b1 b2 : Bool)
    (He : lookupA e m.edges = some he1)
    (H1 : lookupA he1 m.hes = some ⟨hn1, he2, v1, e, f1⟩)
    (H2 : lookupA hn1 m.hes = some ⟨hnn1, tb, v2, eb, f1⟩)
    (H3 : lookupA hnn1 m.hes = some ⟨he1, tc, w1, ec, f1⟩)
    (H4 : lookupA he2 m.hes = some ⟨hn2, he1, v2, e, f2⟩)
    (H5 : lookupA hn2 m.hes = some ⟨hnn2, td, v1, ed, f2⟩)
    (H6 : lookupA hnn2 m.hes = some ⟨he2, te, w2, ee, f2⟩)
    (HF1 : lookupA f1 m.faces = some ⟨he1, b1⟩)
    (HF2 : lookupA f2 m.faces = some ⟨he2, b2⟩)
    (HV1 : lookupA v1 m.verts = some vd1)
    (HV2 : lookupA v2 m.verts = some vd2)
    (HEc : (lookupA ec m.edges).isSome)
    (HEe : (lookupA ee m.edges).isSome)
    (D1 : hn1 ≠ he1) (D2 : hnn1 ≠ he1) (D3 : hn1 ≠ hnn1)
    (D4 : hn2 ≠ he2) (D5 : hnn2 ≠ he2) (D6 : hn2 ≠ hnn2)
    (D7 : he2 ≠ hn1) (D8 : he2 ≠ hnn1)
    (D9 : hn2 ≠ hn1) (D10 : hn2 ≠ hnn1) (D11 : hnn2 ≠ hn1) (D12 : hnn2 ≠ hnn1)
    (D16 : hnn2 ≠ tc)
    (De1 : e ≠ ec) (De2 : e ≠ ee) (De3 : ee ≠ ec)
    (Dv : v2 ≠ v1) (Df : f2 ≠ f1)
    (HL2 : 2 ≤ m.edges.length)
    (HL6 : 6 ≤ m.hes.length)
    (HWv : keysLT m.fresh m.verts = true) :
    (collapse_edge m e).1 = some m.fresh ∧
    (collapse_edge m e).2.edges.length + 3 = m.edges.length ∧
    (collapse_edge m e).2.verts.length + 1 = m.verts.length := by
  have g1 : getHE m he1 = ⟨hn1, he2, v1, e, f1⟩ := by simp [getHE, H1]
  have g2 : getHE m hn1 = ⟨hnn1, tb, v2, eb, f1⟩ := by simp [getHE, H2]
  have g3 : getHE m hnn1 = ⟨he1, tc, w1, ec, f1⟩ := by simp [getHE, H3]
  have g4 : getHE m he2 = ⟨hn2, he1, v2, e, f2⟩ := by simp [getHE, H4]
  have g5 : getHE m hn2 = ⟨hnn2, td, v1, ed, f2⟩ := by simp [getHE, H5]
  have g6 : getHE m hnn2 = ⟨he2, te, w2, ee, f2⟩ := by simp [getHE, H6]
  have hguard : ¬ (m.edges.length < 2) := by omega
  unfold collapse_edge
  rw [if_neg hguard]
  lift_lets
  extract_lets ee1 ee2 vv1 vv2 nv0 ma1 ma2 ma3 pn1 mb0 pn2 mc0 md0 me0 mf1 mf2 mf3 mf4 mf5
  have E1 : ee1 = he1 := by show erep m e = he1; simp [erep, He]
  have E2 : ee2 = he2 := by show (getHE m ee1).twin = he2; rw [E1, g1]
  have EV1 : vv1 = v1 := by show (getHE m ee1).vertex = v1; rw [E1, g1]
  have EV2 : vv2 = v2 := by show (getHE m ee2).vertex = v2; rw [E2, g4]
  have hA_getHE : ∀ h, getHE ma3 h = getHE m h := fun h => rfl
  have hA_vlen : ma3.verts.length = m.verts.length + 1 := by
    show (updateA nv0 _ (updateA nv0 _ ((m.fresh, dVRec) :: m.verts))).length = m.verts.length + 1
    exact length_upd_upd_cons m.verts m.fresh nv0 nv0 _ _ dVRec
  have hA_vsome : ∀ k, (lookupA k ma3.verts).isSome =
      (lookupA k ((m.fresh, dVRec) :: m.verts)).isSome := by
    intro k
    show (lookupA k (updateA nv0 _ (updateA nv0 _ ((m.fresh, dVRec) :: m.verts)))).isSome = _
    rw [isSome_lookupA_updateA, isSome_lookupA_updateA]
  have P1 : pn1 = hnn1 := by
    show walkPrev ma3 ee1 ee1 ma3.hes.length = hnn1
    rw [E1]
    have hfl : ma3.hes.length = (m.hes.length - 3) + 3 := by
      have h0 : ma3.hes.length = m.hes.length := rfl
      omega
    rw [hfl]
    exact walkPrev_tri ma3 he1 hn1 hnn1 _ (by rw [hA_getHE, g1]) (by rw [hA_getHE, g2])
      (by rw [hA_getHE, g3]) D1 D2
  have hB : mb0 = retargetFan ee1 nv0 ma3.hes.length (getHE ma3 pn1).twin ma3 := rfl
  have hB_next : ∀ h, (getHE mb0 h).next = (getHE m h).next := by
    intro h
    rw [hB, retargetFan_getHE_next, hA_getHE]
  have hB_face : ∀ h, (getHE mb0 h).face = (getHE m h).face := by
    intro h
    rw [hB, retargetFan_getHE_face, hA_getHE]
  have hB_edge : ∀ h, (getHE mb0 h).edge = (getHE m h).edge := by
    intro h
    rw [hB, retargetFan_getHE_edge, hA_getHE]
  have hB_twin : ∀ h, (getHE mb0 h).twin = (getHE m h).twin := by
    intro h
    rw [hB, retargetFan_getHE_twin, hA_getHE]
  have hB_len : mb0.hes.length = m.hes.length := by
    rw [hB, retargetFan_hes_length]
    rfl
  have hB_edges : mb0.edges = m.edges := by
    rw [hB, retargetFan_edges]
    rfl
  have hB_faces : mb0.faces = m.faces := by
    rw [hB, retargetFan_faces]
    rfl
  have hB_verts : mb0.verts = ma3.verts := by rw [hB, retargetFan_verts]
  have hB_some : ∀ h, (lookupA h mb0.hes).isSome = (lookupA h m.hes).isSome := by
    intro h
    rw [hB, retargetFan_lookupA_isSome]
    rfl
  have P2 : pn2 = hnn2 := by
    show walkPrev mb0 ee2 ee2 mb0.hes.length = hnn2
    rw [E2]
    have hfl2 : mb0.hes.length = (m.hes.length - 3) + 3 := by rw [hB_len]; omega
    rw [hfl2]
    exact walkPrev_tri mb0 he2 hn2 hnn2 _ (by rw [hB_next, g4]) (by rw [hB_next, g5])
      (by rw [hB_next, g6]) D4 D5
  have hC : mc0 = retargetFan ee2 nv0 mb0.hes.length (getHE mb0 pn2).twin mb0 := rfl
  have hC_next : ∀ h, (getHE mc0 h).next = (getHE m h).next := by
    intro h
    rw [hC, retargetFan_getHE_next, hB_next]
  have hC_face : ∀ h, (getHE mc0 h).face = (getHE m h).face := by
    intro h
    rw [hC, retargetFan_getHE_face, hB_face]
  have hC_edge : ∀ h, (getHE mc0 h).edge = (getHE m h).edge := by
    intro h
    rw [hC, retargetFan_getHE_edge, hB_edge]
  have hC_twin : ∀ h, (getHE mc0 h).twin = (getHE m h).twin := by
    intro h
    rw [hC, retargetFan_getHE_twin, hB_twin]
  have hC_len : mc0.hes.length = m.hes.length := by
    rw [hC, retargetFan_hes_length, hB_len]
  have hC_edges : mc0.edges = m.edges := by rw [hC, retargetFan_edges, hB_edges]
  have hC_faces : mc0.faces = m.faces := by rw [hC, retargetFan_faces, hB_faces]
  have hC_verts : mc0.verts = ma3.verts := by rw [hC, retargetFan_verts, hB_verts]
  have hC_some : ∀ h, (lookupA h mc0.hes).isSome = (lookupA h m.hes).isSome := by
    intro h
    rw [hC, retargetFan_lookupA_isSome, hB_some]
  have hfaceA : (getHE mc0 ee1).face = f1 := by rw [E1, hC_face, g1]
  have hfrepA : frep mc0 f1 = he1 := by
    show ((lookupA f1 mc0.faces).getD dFRec).rep = he1
    rw [hC_faces, HF1]
    rfl
  have hdegA : faceDegree mc0 ((getHE mc0 ee1).face) = 3 := by
    rw [hfaceA]
    show degLoop mc0 (frep mc0 f1) (frep mc0 f1) 0 mc0.hes.length = 3
    rw [hfrepA]
    have hfl3 : mc0.hes.length = (m.hes.length - 3) + 3 := by rw [hC_len]; omega
    rw [hfl3]
    exact degLoop_tri mc0 he1 hn1 hnn1 _ 0 (by rw [hC_next, g1]) (by rw [hC_next, g2])
      (by rw [hC_next, g3]) D1 D2
  have hpA1 : (lookupA ((getHE mc0 ee1).next) mc0.hes).isSome := by
    have hx : (getHE mc0 ee1).next = hn1 := by rw [E1, hC_next, g1]
    rw [hx, hC_some, H2]
    rfl
  have hpA2 : (lookupA pn1 mc0.hes).isSome := by
    rw [P1, hC_some, H3]
    rfl
  have hneA : (getHE mc0 ee1).next ≠ pn1 := by
    rw [E1, hC_next, g1, P1]
    exact D3
  obtain ⟨sA_edges, sA_faces, sA_vlen, sA_vsome, sA_hlen, sA_pres⟩ :=
    collapseSideA_spec mc0 ee1 pn1 nv0 hdegA hpA1 hpA2 hneA
  have hD : md0 = collapseSideA mc0 ee1 pn1 nv0 := rfl
  have hD_edges : md0.edges = eraseA ec (updateA ((getHE mc0 (getHE mc0 ee1).next).edge)
      (fun _ => (getHE mc0 (getHE mc0 ee1).next).twin) m.edges) := by
    rw [hD, sA_edges, hC_edges, show (getHE mc0 pn1).edge = ec from by rw [P1, hC_edge, g3]]
  obtain ⟨K1, G1, hKG1⟩ : ∃ K G, md0.edges = eraseA ec (updateA K G m.edges) := ⟨_, _, hD_edges⟩
  have hD_elen : md0.edges.length + 1 = m.edges.length := by
    rw [hKG1]
    have q := length_eraseA (l := updateA K1 G1 m.edges) (k := ec)
      (by rw [isSome_lookupA_updateA]; exact HEc)
    rw [length_updateA] at q
    exact q
  have hD_esome : ∀ k, k ≠ ec → (lookupA k md0.edges).isSome = (lookupA k m.edges).isSome := by
    intro k hk
    rw [hKG1, isSome_lookupA_eraseA _ hk, isSome_lookupA_updateA]
  have hD_vlen : md0.verts.length = m.verts.length + 1 := by
    rw [hD, sA_vlen, hC_verts, hA_vlen]
  have hD_vsome : ∀ k, (lookupA k md0.verts).isSome =
      (lookupA k ((m.fresh, dVRec) :: m.verts)).isSome := by
    intro k
    rw [hD, sA_vsome, hC_verts, hA_vsome]
  have hD_next : ∀ h, h ≠ hn1 → h ≠ hnn1 → (getHE md0 h).next = (getHE m h).next := by
    intro h hx1 hx2
    have hcond1 : h ≠ (getHE mc0 ee1).next := by rw [E1, hC_next, g1]; exact hx1
    have hcond2 : h ≠ pn1 := by rw [P1]; exact hx2
    have q := (sA_pres h hcond1 hcond2).1
    rw [hD, q, hC_next]
  have hD_face : ∀ h, h ≠ hn1 → h ≠ hnn1 → (getHE md0 h).face = (getHE m h).face := by
    intro h hx1 hx2
    have hcond1 : h ≠ (getHE mc0 ee1).next := by rw [E1, hC_next, g1]; exact hx1
    have hcond2 : h ≠ pn1 := by rw [P1]; exact hx2
    have q := (sA_pres h hcond1 hcond2).2.1
    rw [hD, q, hC_face]
  have hD_edge : ∀ h, h ≠ hn1 → h ≠ hnn1 → h ≠ tc → (getHE md0 h).edge = (getHE m h).edge := by
    intro h hx1 hx2 hx3
    have hcond1 : h ≠ (getHE mc0 ee1).next := by rw [E1, hC_next, g1]; exact hx1
    have hcond2 : h ≠ pn1 := by rw [P1]; exact hx2
    have hcond3 : h ≠ (getHE mc0 pn1).twin := by rw [P1, hC_twin, g3]; exact hx3
    have q := (sA_pres h hcond1 hcond2).2.2 hcond3
    rw [hD, q, hC_edge]
  have hD_hlen : md0.hes.length + 2 = m.hes.length := by
    have q := sA_hlen
    rw [hC_len] at q
    rw [hD]
    exact q
  have hfaceB : (getHE md0 ee2).face = f2 := by
    rw [E2, hD_face he2 D7 D8, g4]
  have hfrepB : frep md0 f2 = he2 := by
    show ((lookupA f2 md0.faces).getD dFRec).rep = he2
    rw [hD, sA_faces, hfaceA, hC_faces, lookupA_eraseA_ne _ Df, HF2]
    rfl
  have hdegB : faceDegree md0 ((getHE md0 ee2).face) = 3 := by
    rw [hfaceB]
    show degLoop md0 (frep md0 f2) (frep md0 f2) 0 md0.hes.length = 3
    rw [hfrepB]
    have hfl4 : md0.hes.length = (m.hes.length - 5) + 3 := by omega
    rw [hfl4]
    exact degLoop_tri md0 he2 hn2 hnn2 _ 0 (by rw [hD_next he2 D7 D8, g4])
      (by rw [hD_next hn2 D9 D10, g5]) (by rw [hD_next hnn2 D11 D12, g6]) D4 D5
  obtain ⟨sB_edges, sB_vlen, sB_vsome⟩ := collapseSideB_spec md0 ee2 pn2 hdegB
  have hE : me0 = collapseSideB md0 ee2 pn2 := rfl
  have hEkey : (getHE md0 pn2).edge = ee := by
    rw [P2, hD_edge hnn2 D11 D12 D16, g6]
  obtain ⟨K2, G2, hKG2⟩ : ∃ K G, me0.edges = eraseA ee (updateA K G md0.edges) :=
    ⟨_, _, by rw [hE, sB_edges, hEkey]⟩
  have hE_elen : me0.edges.length + 2 = m.edges.length := by
    rw [hKG2]
    have q := length_eraseA (l := updateA K2 G2 md0.edges) (k := ee)
      (by rw [isSome_lookupA_updateA, hD_esome ee De3, HEe])
    rw [length_updateA] at q
    omega
  have hE_esome : (lookupA e me0.edges).isSome := by
    rw [hKG2, isSome_lookupA_eraseA _ De2, isSome_lookupA_updateA, hD_esome e De1, He]
    rfl
  have hE_vlen : me0.verts.length = m.verts.length + 1 := by
    rw [hE, sB_vlen, hD_vlen]
  have hE_vsome : ∀ k, (lookupA k me0.verts).isSome =
      (lookupA k ((m.fresh, dVRec) :: m.verts)).isSome := by
    intro k
    rw [hE, sB_vsome, hD_vsome]
  have hv1lt : v1 ≠ m.fresh := by
    have := lt_of_keysLT HWv HV1
    omega
  have hv2lt : v2 ≠ m.fresh := by
    have := lt_of_keysLT HWv HV2
    omega
  have hv1some : (lookupA v1 me0.verts).isSome := by
    rw [hE_vsome, lookupA_cons_ne _ _ hv1lt, HV1]
    rfl
  have hv2some : (lookupA v2 me0.verts).isSome := by
    rw [hE_vsome, lookupA_cons_ne _ _ hv2lt, HV2]
    rfl
  have hF_edges : mf5.edges = eraseA e me0.edges := rfl
  have hF_verts : mf5.verts = eraseA vv2 (eraseA vv1 me0.verts) := rfl
  rw [EV1, EV2] at hF_verts
  refine ⟨rfl, ?_, ?_⟩
  · show mf5.edges.length + 3 = m.edges.length
    rw [hF_edges]
    have q := length_eraseA hE_esome
    omega
  · show mf5.verts.length + 1 = m.verts.length
    rw [hF_verts]
    have q1 := length_eraseA hv1some
    have q2 := length_eraseA (l := eraseA v1 me0.verts) (k := v2)
      (by rw [isSome_lookupA_eraseA _ Dv]; exact hv2some)
    omega

/-- Witness for C5 on tetra edge 31: six edges become three, four vertices three. -/
theorem collapse_edge_counts_witness :
    (collapse_edge tetra 31).1 = some 100 ∧
    (collapse_edge tetra 31).2.edges.length + 3 = 6 ∧
    (collapse_edge tetra 31).2.verts.length + 1 = 4 := by
  obtain ⟨h1, h2, h3⟩ := collapse_edge_counts tetra 31 1 2 3 9 7 8 21 22 23 24 41 43 32 33 35 36
    12 4 6 10 ⟨1, ⟨0, 0, 0⟩⟩ ⟨2, ⟨1, 0, 0⟩⟩ false false
    (by decide) (by decide) (by decide) (by decide) (by decide) (by decide) (by decide)
    (by decide) (by decide) (by decide) (by decide) (by decide) (by decide)
    (by decide) (by decide) (by decide) (by decide) (by decide) (by decide)
    (by decide) (by decide) (by decide) (by decide) (by decide) (by decide)
    (by decide) (by decide) (by decide) (by decide) (by decide) (by decide)
    (by decide) (by decide) (by decide)
  exact ⟨h1, h2, h3⟩

/-- C7 counterexample: flipping tetra edge 31 twice succeeds both times, yet
half-edge 1 afterwards originates at vertex 22 where it originally originated
at vertex 21, and belongs to face 41 whose cycle now covers the other triangle:
two flips do not restore the vertex assignment. -/
theorem double_flip_not_identity :
    (flip_edge tetra 31).1 = some 31 ∧
    (flip_edge (flip_edge tetra 31).2 31).1 = some 31 ∧
    (getHE tetra 1).vertex = 21 ∧
    (getHE (flip_edge (flip_edge tetra 31).2 31).2 1).vertex = 22 ∧
    (getHE tetra 1).next = 2 ∧
    (getHE (flip_edge (flip_edge tetra 31).2 31).2 1).next = 7 := by
  refine ⟨by decide, by decide, by decide, by decide, by decide, by decide⟩

/-- C2: every refused operator call leaves the mesh exactly as it was before
the call: each refusal in the source returns before any element is allocated,
erased, or written. -/
theorem refused_call_leaves_mesh_unchanged (m : Mesh) (x : Nat)
    (nrm : Nat → Vec3Q) (addr : Nat → Nat) :
    ((flip_edge m x).1 = none → (flip_edge m x).2 = m) ∧
    ((split_edge m x).1 = none → (split_edge m x).2 = m) ∧
    ((collapse_edge m x).1 = none → (collapse_edge m x).2 = m) ∧
    erase_vertex m x = (none, m) ∧
    erase_edge m x = (none, m) ∧
    collapse_face m x = (none, m) ∧
    bevel_vertex m x = (none, m) ∧
    bevel_edge m x = (none, m) ∧
    bevel_face m x = (none, m) ∧
    isotropic_remesh m = (false, m) ∧
    ((simplify nrm addr m).1 = false → (simplify nrm addr m).2 = m) := by
  refine ⟨?_, ?_, ?_, rfl, rfl, rfl, rfl, rfl, rfl, rfl, ?_⟩
  · intro h
    by_cases hb : edgeOnBoundary m x
    · simp [flip_edge, hb]
    · simp [flip_edge, hb] at h
  · intro h
    by_cases hb : (heBoundary m (erep m x) || heBoundary m (getHE m (erep m x)).twin) = true
    · simp [split_edge, hb]
    · simp only [Bool.not_eq_true] at hb
      simp [split_edge, hb] at h
  · intro h
    by_cases hb : m.edges.length < 2
    · simp [collapse_edge, hb]
    · simp [collapse_edge, hb] at h
  · intro h
    by_cases hb : m.edges.length < 3
    · simp [simplify, hb]
    · simp only [simplify, hb, if_false] at h
      rw [simpLoop_fst] at h
      cases h

/-- Witness for C2: on the boundary triangle every edge flip and split refuses
and the mesh is unchanged; on a one-edge state collapse and simplify refuse and
the mesh is unchanged. -/
theorem refused_call_leaves_mesh_unchanged_witness :
    (flip_edge triMesh 81).1 = none ∧ (flip_edge triMesh 81).2 = triMesh ∧
    (split_edge triMesh 81).1 = none ∧ (split_edge triMesh 81).2 = triMesh ∧
    (collapse_edge oneEdgeMesh 1).1 = none ∧ (collapse_edge oneEdgeMesh 1).2 = oneEdgeMesh ∧
    (simplify (fun _ => ⟨0, 0, 0⟩) (fun n => n) oneEdgeMesh).1 = false ∧
    (simplify (fun _ => ⟨0, 0, 0⟩) (fun n => n) oneEdgeMesh).2 = oneEdgeMesh := by
  obtain ⟨g1, g2, _⟩ :=
    refused_call_leaves_mesh_unchanged triMesh 81 (fun _ => ⟨0, 0, 0⟩) (fun n => n)
  obtain ⟨_, _, h3, _, _, _, _, _, _, _, h11⟩ :=
    refused_call_leaves_mesh_unchanged oneEdgeMesh 1 (fun _ => ⟨0, 0, 0⟩) (fun n => n)
  exact ⟨by decide, g1 (by decide), by decide, g2 (by decide), by decide, h3 (by decide),
    by decide, h11 (by decide)⟩

/-- C8 counterexample: for the concrete symmetric invertible combined quadric
qC8 (the sum of the endpoint quadrics of tetra edge 31 under the map vqC8), the
Edge_Record optimal position (-1, 0, 0) is NOT the solution (-1/2, 0, 0) of the
spec's 3x3 upper-block linear system, and the stored cost 1 is NOT the quadric
error form 2 evaluated at the stored optimal. -/
theorem edge_record_not_spec_solution :
    (mkERec vqC8 tetra 31).optimal = optOf qC8 ∧
    (mkERec vqC8 tetra 31).cost = costOf qC8 ∧
    optOf qC8 = ⟨-1, 0, 0⟩ ∧
    specOptimal qC8 = ⟨-1/2, 0, 0⟩ ∧
    optOf qC8 ≠ specOptimal qC8 ∧
    costOf qC8 = 1 ∧
    quadForm qC8 (optOf qC8) = 2 ∧
    costOf qC8 ≠ quadForm qC8 (optOf qC8) := by
  have hval : optOf qC8 = ⟨-1, 0, 0⟩ := by
    norm_num [optOf, xformPt, minv, adj4, det4, det3, smulM, mulV4, v4s, v4add, bvecOf,
      vneg3, qC8, Vec3Q.mk.injEq]
  have hcost : costOf qC8 = 1 := by
    rw [costOf, hval]
    norm_num [xformPt, mulV4, v4s, v4add, dot3, qC8]
  have hz : madd qC8 mat4Zero = qC8 := by
    norm_num [madd, v4add, qC8, mat4Zero]
  have hrec : mkERec vqC8 tetra 31 = ⟨31, optOf qC8, costOf qC8⟩ := by
    have hlk : mkERec vqC8 tetra 31 =
        ⟨31, optOf (madd qC8 mat4Zero), costOf (madd qC8 mat4Zero)⟩ := by
      simp [mkERec, tetra, getHE, erep, lookupA, vqC8, dHRec]
    rw [hlk, hz]
  have hspec : specOptimal qC8 = ⟨-1/2, 0, 0⟩ := by
    norm_num [specOptimal, det3, qC8, Vec3Q.mk.injEq]
  have hform : quadForm qC8 (optOf qC8) = 2 := by
    rw [hval]
    norm_num [quadForm, mulV4, v4s, v4add, dot4, qC8]
  refine ⟨by rw [hrec], by rw [hrec], hval, hspec, ?_, hcost, hform, ?_⟩
  · rw [hval, hspec]
    intro hcon
    rw [Vec3Q.mk.injEq] at hcon
    norm_num at hcon
  · rw [hcost, hform]
    norm_num

/-- C8 amended: the Edge_Record combines the two endpoint quadrics by summing
them, as claimed; but its optimal is the point obtained by applying the full
4x4 inverse of the combined quadric to b = -(Q[3][0], Q[3][1], Q[3][2]) — i.e.,
when the determinant and the homogeneous weight are nonzero, the homogenized
optimal solves the 4x4 system Q y = (b, 1) — rather than the 3x3 upper-block
system; and its cost is dot(optimal, Q * optimal) under the point-transform
convention, rather than the quadric form at the optimal. -/
theorem edge_record_solves_homogeneous_system (vq : List (Nat × Mat4Q)) (m : Mesh)
    (e : Nat) (q1 q2 : Mat4Q)
    (h1 : lookupA (getHE m (erep m e)).vertex vq = some q1)
    (h2 : lookupA (getHE m (getHE m (erep m e)).twin).vertex vq = some q2)
    (hd : det4 (madd q1 q2) ≠ 0)
    (hw : (mulV4 (minv (madd q1 q2))
        ⟨(bvecOf (madd q1 q2)).x, (bvecOf (madd q1 q2)).y, (bvecOf (madd q1 q2)).z, 1⟩).w ≠ 0) :
    mkERec vq m e = ⟨e, optOf (madd q1 q2), costOf (madd q1 q2)⟩ ∧
    mulV4 (madd q1 q2)
      ⟨(mulV4 (minv (madd q1 q2)) ⟨(bvecOf (madd q1 q2)).x, (bvecOf (madd q1 q2)).y,
          (bvecOf (madd q1 q2)).z, 1⟩).w * (optOf (madd q1 q2)).x,
       (mulV4 (minv (madd q1 q2)) ⟨(bvecOf (madd q1 q2)).x, (bvecOf (madd q1 q2)).y,
          (bvecOf (madd q1 q2)).z, 1⟩).w * (optOf (madd q1 q2)).y,
       (mulV4 (minv (madd q1 q2)) ⟨(bvecOf (madd q1 q2)).x, (bvecOf (madd q1 q2)).y,
          (bvecOf (madd q1 q2)).z, 1⟩).w * (optOf (madd q1 q2)).z,
       (mulV4 (minv (madd q1 q2)) ⟨(bvecOf (madd q1 q2)).x, (bvecOf (madd q1 q2)).y,
          (bvecOf (madd q1 q2)).z, 1⟩).w⟩ =
      ⟨(bvecOf (madd q1 q2)).x, (bvecOf (madd q1 q2)).y, (bvecOf (madd q1 q2)).z, 1⟩ := by
  constructor
  · simp [mkERec, h1, h2]
  · set q := madd q1 q2 with hq
    set bv : Vec4Q := ⟨(bvecOf q).x, (bvecOf q).y, (bvecOf q).z, 1⟩ with hbv
    have hopt : optOf q = ⟨(mulV4 (minv q) bv).x / (mulV4 (minv q) bv).w,
        (mulV4 (minv q) bv).y / (mulV4 (minv q) bv).w,
        (mulV4 (minv q) bv).z / (mulV4 (minv q) bv).w⟩ := by
      rw [optOf, xformPt]
    rw [hopt]
    have hx : (mulV4 (minv q) bv).w * ((mulV4 (minv q) bv).x / (mulV4 (minv q) bv).w) =
        (mulV4 (minv q) bv).x := by
      field_simp
    have hy : (mulV4 (minv q) bv).w * ((mulV4 (minv q) bv).y / (mulV4 (minv q) bv).w) =
        (mulV4 (minv q) bv).y := by
      field_simp
    have hz : (mulV4 (minv q) bv).w * ((mulV4 (minv q) bv).z / (mulV4 (minv q) bv).w) =
        (mulV4 (minv q) bv).z := by
      field_simp
    rw [hx, hy, hz]
    exact mulV4_minv q bv hd

/-- Witness for C8's amended theorem at the concrete quadric qC8 split as
qC8 + zero on the endpoints of tetra edge 31. -/
theorem edge_record_solves_homogeneous_system_witness :
    mkERec vqC8 tetra 31 = ⟨31, optOf (madd qC8 mat4Zero), costOf (madd qC8 mat4Zero)⟩ := by
  exact (edge_record_solves_homogeneous_system vqC8 tetra 31 qC8 mat4Zero
    (by simp [tetra, getHE, erep, lookupA, vqC8, dHRec])
    (by simp [tetra, getHE, erep, lookupA, vqC8, dHRec])
    (by norm_num [madd, v4add, det4, det3, qC8, mat4Zero])
    (by norm_num [madd, v4add, minv, adj4, det4, det3, smulM, mulV4, v4s, bvecOf, vneg3,
        qC8, mat4Zero])).1

/-- C9 counterexample: two equal-cost records compare differently under two
different address assignments for the same run input, so the tie order is
decided by the per-run memory address of the edge element, not by a stable
per-edge id, and two runs laying out memory differently pop in different
orders. -/
theorem tie_order_depends_on_address :
    (⟨5, ⟨0, 0, 0⟩, 1⟩ : ERec).cost = (⟨6, ⟨0, 0, 0⟩, 1⟩ : ERec).cost ∧
    ltER (fun n => n) ⟨5, ⟨0, 0, 0⟩, 1⟩ ⟨6, ⟨0, 0, 0⟩, 1⟩ = true ∧
    ltER (fun n => 10 - n) ⟨5, ⟨0, 0, 0⟩, 1⟩ ⟨6, ⟨0, 0, 0⟩, 1⟩ = false := by
  refine ⟨rfl, by decide, by decide⟩

/-- C9 amended: records are ordered by cost, and only equal-cost ties consult
the memory-address assignment of the run (stable within one run, but not a
stable per-edge identity across runs). -/
theorem ltER_cost_then_address (addr : Nat → Nat) (r1 r2 : ERec) :
    (r1.cost ≠ r2.cost → ltER addr r1 r2 = decide (r1.cost < r2.cost)) ∧
    (r1.cost = r2.cost → ltER addr r1 r2 = decide (addr r1.edge < addr r2.edge)) := by
  constructor
  · intro h
    simp [ltER, h]
  · intro h
    simp [ltER, h]

/-- Witness for C9's amended theorem on concrete records under the identity
address assignment. -/
theorem ltER_cost_then_address_witness :
    ltER (fun n => n) ⟨1, ⟨0, 0, 0⟩, 0⟩ ⟨2, ⟨0, 0, 0⟩, 5⟩ = true ∧
    ltER (fun n => n) ⟨1, ⟨0, 0, 0⟩, 3⟩ ⟨2, ⟨0, 0, 0⟩, 3⟩ = true := by
  constructor
  · rw [(ltER_cost_then_address (fun n => n) ⟨1, ⟨0, 0, 0⟩, 0⟩ ⟨2, ⟨0, 0, 0⟩, 5⟩).1 (by decide)]
    decide
  · rw [(ltER_cost_then_address (fun n => n) ⟨1, ⟨0, 0, 0⟩, 3⟩ ⟨2, ⟨0, 0, 0⟩, 3⟩).2 (by decide)]
    decide


theorem getHE_setNextH_face (m : Mesh) (k v h : Nat) :
    (getHE (setNextH m k v) h).face = (getHE m h).face := by
  by_cases hh : h = k
  · subst hh
    simp only [setNextH, getHE, lookupA_updateA_self]
    cases lookupA h m.hes <;> rfl
  · simp only [setNextH, getHE, lookupA_updateA_ne _ _ hh]

theorem getHE_setFceH_face_ne (m : Mesh) (k v h : Nat) (hh : h ≠ k) :
    (getHE (setFceH m k v) h).face = (getHE m h).face := by
  simp only [setFceH, getHE, lookupA_updateA_ne _ _ hh]

theorem flip_step (m : Mesh)
    (e he1 hn1 hnn1 he2 hn2 hnn2 a b c d eb ec ed ee tb tc td te f1 f2 r1 r2 : Nat)
    (He : lookupA e m.edges = some he1)
    (H1 : lookupA he1 m.hes = some ⟨hn1, he2, b, e, f1⟩)
    (H2 : lookupA hn1 m.hes = some ⟨hnn1, tb, a, eb, f1⟩)
    (H3 : lookupA hnn1 m.hes = some ⟨he1, tc, c, ec, f1⟩)
    (H4 : lookupA he2 m.hes = some ⟨hn2, he1, a, e, f2⟩)
    (H5 : lookupA hn2 m.hes = some ⟨hnn2, td, b, ed, f2⟩)
    (H6 : lookupA hnn2 m.hes = some ⟨he2, te, d, ee, f2⟩)
    (HF1 : lookupA f1 m.faces = some ⟨r1, false⟩)
    (HF2 : lookupA f2 m.faces = some ⟨r2, false⟩)
    (N12 : he1 ≠ hn1) (N13 : he1 ≠ hnn1) (N14 : he1 ≠ he2) (N15 : he1 ≠ hn2)
    (N16 : he1 ≠ hnn2) (N23 : hn1 ≠ hnn1) (N24 : hn1 ≠ he2) (N25 : hn1 ≠ hn2)
    (N26 : hn1 ≠ hnn2) (N34 : hnn1 ≠ he2) (N35 : hnn1 ≠ hn2) (N36 : hnn1 ≠ hnn2)
    (N45 : he2 ≠ hn2) (N46 : he2 ≠ hnn2) (N56 : hn2 ≠ hnn2)
    (Df : f2 ≠ f1) :
    (flip_edge m e).1 = some e ∧
    (flip_edge m e).2.verts = m.verts ∧
    (flip_edge m e).2.edges = m.edges ∧
    (flip_edge m e).2.fresh = m.fresh ∧
    lookupA he1 (flip_edge m e).2.hes = some ⟨hnn1, he2, d, e, f1⟩ ∧
    lookupA hn1 (flip_edge m e).2.hes = some ⟨he2, tb, a, eb, f2⟩ ∧
    lookupA hnn1 (flip_edge m e).2.hes = some ⟨hn2, tc, c, ec, f1⟩ ∧
    lookupA he2 (flip_edge m e).2.hes = some ⟨hnn2, he1, c, e, f2⟩ ∧
    lookupA hn2 (flip_edge m e).2.hes = some ⟨he1, td, b, ed, f1⟩ ∧
    lookupA hnn2 (flip_edge m e).2.hes = some ⟨hn1, te, d, ee, f2⟩ ∧
    lookupA f1 (flip_edge m e).2.faces = some ⟨he1, false⟩ ∧
    lookupA f2 (flip_edge m e).2.faces = some ⟨he2, false⟩ ∧
    (∀ h, h ≠ he1 → h ≠ hn1 → h ≠ hnn1 → h ≠ he2 → h ≠ hn2 → h ≠ hnn2 →
      lookupA h (flip_edge m e).2.hes = lookupA h m.hes) ∧
    (∀ f, f ≠ f1 → f ≠ f2 → lookupA f (flip_edge m e).2.faces = lookupA f m.faces) := by
  have g1 : getHE m he1 = ⟨hn1, he2, b, e, f1⟩ := by simp [getHE, H1]
  have g2 : getHE m hn1 = ⟨hnn1, tb, a, eb, f1⟩ := by simp [getHE, H2]
  have g3 : getHE m hnn1 = ⟨he1, tc, c, ec, f1⟩ := by simp [getHE, H3]
  have g4 : getHE m he2 = ⟨hn2, he1, a, e, f2⟩ := by simp [getHE, H4]
  have g5 : getHE m hn2 = ⟨hnn2, td, b, ed, f2⟩ := by simp [getHE, H5]
  have g6 : getHE m hnn2 = ⟨he2, te, d, ee, f2⟩ := by simp [getHE, H6]
  have hcond : ¬ (edgeOnBoundary m e = true) := by
    simp [edgeOnBoundary, heBoundary, fbdry, erep, He, getHE, H1, H4, HF1, HF2]
  unfold flip_edge
  rw [if_neg hcond]
  lift_lets
  extract_lets xhe1 xhe2 xhn1 xhn2 xhnn1 xhnn2 xd1 xd2 xb1 xb2 xm1 xm2 xm3 xm4 xm5 xm6
    xm7 xm8 xm9 xm10 xm11 xm12
  have E1 : xhe1 = he1 := by show erep m e = he1; simp [erep, He]
  have E2 : xhe2 = he2 := by show (getHE m xhe1).twin = he2; rw [E1, g1]
  have E3 : xhn1 = hn1 := by show (getHE m xhe1).next = hn1; rw [E1, g1]
  have E4 : xhn2 = hn2 := by show (getHE m xhe2).next = hn2; rw [E2, g4]
  have E5 : xhnn1 = hnn1 := by show (getHE m xhn1).next = hnn1; rw [E3, g2]
  have E6 : xhnn2 = hnn2 := by show (getHE m xhn2).next = hnn2; rw [E4, g5]
  have ED1 : xd1 = c := by show (getHE m xhnn1).vertex = c; rw [E5, g3]
  have ED2 : xd2 = d := by show (getHE m xhnn2).vertex = d; rw [E6, g6]
  have hfuel : m.hes.length = (m.hes.length - 1) + 1 := by
    have h0 := one_le_length_of_lookupA (k := he1) (l := m.hes) (by rw [H1]; rfl)
    omega
  have P1 : xb1 = hnn1 := by
    show walkPrev m xhe1 xhnn1 m.hes.length = hnn1
    rw [E1, E5, hfuel]
    exact walkPrev_stop m he1 hnn1 _ (by rw [g3])
  have P2 : xb2 = hnn2 := by
    show walkPrev m xhe2 xhnn2 m.hes.length = hnn2
    rw [E2, E6, hfuel]
    exact walkPrev_stop m he2 hnn2 _ (by rw [g6])
  have hfa1 : (getHE xm8 xhe1).face = f1 := by
    rw [show xm8 = setNextH xm7 xb2 xhn1 from rfl, getHE_setNextH_face,
      show xm7 = setNextH xm6 xb1 xhn2 from rfl, getHE_setNextH_face,
      show xm6 = setNextH xm5 xhn2 xhe1 from rfl, getHE_setNextH_face,
      show xm5 = setNextH xm4 xhn1 xhe2 from rfl, getHE_setNextH_face,
      show xm4 = setNextH xm3 xhe2 xhnn2 from rfl, getHE_setNextH_face,
      show xm3 = setNextH xm2 xhe1 xhnn1 from rfl, getHE_setNextH_face,
      show xm2 = setVtxH xm1 xhe2 xd1 from rfl, getHE_setVtxH_face,
      show xm1 = setVtxH m xhe1 xd2 from rfl, getHE_setVtxH_face, E1, g1]
  have hfa2 : (getHE xm8 xhe2).face = f2 := by
    rw [show xm8 = setNextH xm7 xb2 xhn1 from rfl, getHE_setNextH_face,
      show xm7 = setNextH xm6 xb1 xhn2 from rfl, getHE_setNextH_face,
      show xm6 = setNextH xm5 xhn2 xhe1 from rfl, getHE_setNextH_face,
      show xm5 = setNextH xm4 xhn1 xhe2 from rfl, getHE_setNextH_face,
      show xm4 = setNextH xm3 xhe2 xhnn2 from rfl, getHE_setNextH_face,
      show xm3 = setNextH xm2 xhe1 xhnn1 from rfl, getHE_setNextH_face,
      show xm2 = setVtxH xm1 xhe2 xd1 from rfl, getHE_setVtxH_face,
      show xm1 = setVtxH m xhe1 xd2 from rfl, getHE_setVtxH_face, E2, g4]
  have hfc2 : (getHE xm10 xhe2).face = f2 := by
    show (getHE xm8 xhe2).face = f2
    exact hfa2
  have hfc1 : (getHE xm11 xhe1).face = f1 := by
    rw [show xm11 = setFceH xm10 xhn1 ((getHE xm10 xhe2).face) from rfl,
      getHE_setFceH_face_ne _ _ _ _ (by rw [E1, E3]; exact N12)]
    show (getHE xm8 xhe1).face = f1
    exact hfa1
  have hHES : xm12.hes =
      updateA xhn2 (fun r => { r with face := (getHE xm11 xhe1).face })
        (updateA xhn1 (fun r => { r with face := (getHE xm10 xhe2).face })
          (updateA xb2 (fun r => { r with next := xhn1 })
            (updateA xb1 (fun r => { r with next := xhn2 })
              (updateA xhn2 (fun r => { r with next := xhe1 })
                (updateA xhn1 (fun r => { r with next := xhe2 })
                  (updateA xhe2 (fun r => { r with next := xhnn2 })
                    (updateA xhe1 (fun r => { r with next := xhnn1 })
                      (updateA xhe2 (fun r => { r with vertex := xd1 })
                        (updateA xhe1 (fun r => { r with vertex := xd2 })
                          m.hes))))))))) := rfl
  rw [hfc1, hfc2, E1, E2, E3, E4, E5, E6, ED1, ED2, P1, P2] at hHES
  have hFAC : xm12.faces =
      updateA ((getHE xm9 xhe2).face) (fun r => { r with rep := xhe2 })
        (updateA ((getHE xm8 xhe1).face) (fun r => { r with rep := xhe1 }) m.faces) := rfl
  have hfb2 : (getHE xm9 xhe2).face = f2 := by
    show (getHE xm8 xhe2).face = f2
    exact hfa2
  rw [hfa1, hfb2, E1, E2] at hFAC
  have S21 : hn1 ≠ he1 := N12.symm
  have S31 : hnn1 ≠ he1 := N13.symm
  have S41 : he2 ≠ he1 := N14.symm
  have S51 : hn2 ≠ he1 := N15.symm
  have S61 : hnn2 ≠ he1 := N16.symm
  have S32 : hnn1 ≠ hn1 := N23.symm
  have S42 : he2 ≠ hn1 := N24.symm
  have S52 : hn2 ≠ hn1 := N25.symm
  have S62 : hnn2 ≠ hn1 := N26.symm
  have S43 : he2 ≠ hnn1 := N34.symm
  have S53 : hn2 ≠ hnn1 := N35.symm
  have S63 : hnn2 ≠ hnn1 := N36.symm
  have S54 : hn2 ≠ he2 := N45.symm
  have S64 : hnn2 ≠ he2 := N46.symm
  have S65 : hnn2 ≠ hn2 := N56.symm
  have SDf : f1 ≠ f2 := Df.symm
  refine ⟨rfl, rfl, rfl, rfl, ?_, ?_, ?_, ?_, ?_, ?_, ?_, ?_, ?_, ?_⟩
  · show lookupA he1 xm12.hes = some ⟨hnn1, he2, d, e, f1⟩
    rw [hHES, lookupA_updateA_ne _ _ N15, lookupA_updateA_ne _ _ N12,
      lookupA_updateA_ne _ _ N16, lookupA_updateA_ne _ _ N13, lookupA_updateA_ne _ _ N15,
      lookupA_updateA_ne _ _ N12, lookupA_updateA_ne _ _ N14, lookupA_updateA_self,
      lookupA_updateA_ne _ _ N14, lookupA_updateA_self, H1]
    rfl
  · show lookupA hn1 xm12.hes = some ⟨he2, tb, a, eb, f2⟩
    rw [hHES, lookupA_updateA_ne _ _ N25, lookupA_updateA_self,
      lookupA_updateA_ne _ _ N26, lookupA_updateA_ne _ _ N23, lookupA_updateA_ne _ _ N25,
      lookupA_updateA_self, lookupA_updateA_ne _ _ N24, lookupA_updateA_ne _ _ S21,
      lookupA_updateA_ne _ _ N24, lookupA_updateA_ne _ _ S21, H2]
    rfl
  · show lookupA hnn1 xm12.hes = some ⟨hn2, tc, c, ec, f1⟩
    rw [hHES, lookupA_updateA_ne _ _ N35, lookupA_updateA_ne _ _ S32,
      lookupA_updateA_ne _ _ N36, lookupA_updateA_self, lookupA_updateA_ne _ _ N35,
      lookupA_updateA_ne _ _ S32, lookupA_updateA_ne _ _ N34, lookupA_updateA_ne _ _ S31,
      lookupA_updateA_ne _ _ N34, lookupA_updateA_ne _ _ S31, H3]
    rfl
  · show lookupA he2 xm12.hes = some ⟨hnn2, he1, c, e, f2⟩
    rw [hHES, lookupA_updateA_ne _ _ N45, lookupA_updateA_ne _ _ S42,
      lookupA_updateA_ne _ _ N46, lookupA_updateA_ne _ _ S43, lookupA_updateA_ne _ _ N45,
      lookupA_updateA_ne _ _ S42, lookupA_updateA_self, lookupA_updateA_ne _ _ S41,
      lookupA_updateA_self, lookupA_updateA_ne _ _ S41, H4]
    rfl
  · show lookupA hn2 xm12.hes = some ⟨he1, td, b, ed, f1⟩
    rw [hHES, lookupA_updateA_self, lookupA_updateA_ne _ _ S52,
      lookupA_updateA_ne _ _ N56, lookupA_updateA_ne _ _ S53, lookupA_updateA_self,
      lookupA_updateA_ne _ _ S52, lookupA_updateA_ne _ _ S54, lookupA_updateA_ne _ _ S51,
      lookupA_updateA_ne _ _ S54, lookupA_updateA_ne _ _ S51, H5]
    rfl
  · show lookupA hnn2 xm12.hes = some ⟨hn1, te, d, ee, f2⟩
    rw [hHES, lookupA_updateA_ne _ _ S65, lookupA_updateA_ne _ _ S62,
      lookupA_updateA_self, lookupA_updateA_ne _ _ S63, lookupA_updateA_ne _ _ S65,
      lookupA_updateA_ne _ _ S62, lookupA_updateA_ne _ _ S64, lookupA_updateA_ne _ _ S61,
      lookupA_updateA_ne _ _ S64, lookupA_updateA_ne _ _ S61, H6]
    rfl
  · show lookupA f1 xm12.faces = some ⟨he1, false⟩
    rw [hFAC, lookupA_updateA_ne _ _ SDf, lookupA_updateA_self, HF1]
    rfl
  · show lookupA f2 xm12.faces = some ⟨he2, false⟩
    rw [hFAC, lookupA_updateA_self, lookupA_updateA_ne _ _ Df, HF2]
    rfl
  · intro h hh1 hh2 hh3 hh4 hh5 hh6
    show lookupA h xm12.hes = lookupA h m.hes
    rw [hHES, lookupA_updateA_ne _ _ hh5, lookupA_updateA_ne _ _ hh2,
      lookupA_updateA_ne _ _ hh6, lookupA_updateA_ne _ _ hh3, lookupA_updateA_ne _ _ hh5,
      lookupA_updateA_ne _ _ hh2, lookupA_updateA_ne _ _ hh4, lookupA_updateA_ne _ _ hh1,
      lookupA_updateA_ne _ _ hh4, lookupA_updateA_ne _ _ hh1]
  · intro f hf1 hf2
    show lookupA f xm12.faces = lookupA f m.faces
    rw [hFAC, lookupA_updateA_ne _ _ hf2, lookupA_updateA_ne _ _ hf1]

/-- C7: corrected. For a non-boundary edge of a mesh satisfying the local half-edge
invariants around the edge (two distinct faces, six distinct half-edges forming the two
triangle cycles), flipping the edge twice succeeds both times but does NOT restore the
original connectivity: the edge's two half-edges exchange their next-pointers and origin
vertices (he1 ends with he2's old origin and vice versa), and the four side half-edges
swap faces — hn1 and hnn1 move from face f1 to f2 while hn2 and hnn2 move from f2 to f1 —
while vertices, edges, the fresh counter, and all other half-edges and faces are unchanged. -/
theorem flip_edge_twice_transposes (m : Mesh)
    (e he1 hn1 hnn1 he2 hn2 hnn2 a b c d eb ec ed ee tb tc td te f1 f2 r1 r2 : Nat)
    (He : lookupA e m.edges = some he1)
    (H1 : lookupA he1 m.hes = some ⟨hn1, he2, b, e, f1⟩)
    (H2 : lookupA hn1 m.hes = some ⟨hnn1, tb, a, eb, f1⟩)
    (H3 : lookupA hnn1 m.hes = some ⟨he1, tc, c, ec, f1⟩)
    (H4 : lookupA he2 m.hes = some ⟨hn2, he1, a, e, f2⟩)
    (H5 : lookupA hn2 m.hes = some ⟨hnn2, td, b, ed, f2⟩)
    (H6 : lookupA hnn2 m.hes = some ⟨he2, te, d, ee, f2⟩)
    (HF1 : lookupA f1 m.faces = some ⟨r1, false⟩)
    (HF2 : lookupA f2 m.faces = some ⟨r2, false⟩)
    (N12 : he1 ≠ hn1) (N13 : he1 ≠ hnn1) (N14 : he1 ≠ he2) (N15 : he1 ≠ hn2)
    (N16 : he1 ≠ hnn2) (N23 : hn1 ≠ hnn1) (N24 : hn1 ≠ he2) (N25 : hn1 ≠ hn2)
    (N26 : hn1 ≠ hnn2) (N34 : hnn1 ≠ he2) (N35 : hnn1 ≠ hn2) (N36 : hnn1 ≠ hnn2)
    (N45 : he2 ≠ hn2) (N46 : he2 ≠ hnn2) (N56 : hn2 ≠ hnn2)
    (Df : f2 ≠ f1) :
    (flip_edge m e).1 = some e ∧
    (flip_edge (flip_edge m e).2 e).1 = some e ∧
    (flip_edge (flip_edge m e).2 e).2.verts = m.verts ∧
    (flip_edge (flip_edge m e).2 e).2.edges = m.edges ∧
    (flip_edge (flip_edge m e).2 e).2.fresh = m.fresh ∧
    lookupA he1 (flip_edge (flip_edge m e).2 e).2.hes = some ⟨hn2, he2, a, e, f1⟩ ∧
    lookupA hn1 (flip_edge (flip_edge m e).2 e).2.hes = some ⟨hnn1, tb, a, eb, f2⟩ ∧
    lookupA hnn1 (flip_edge (flip_edge m e).2 e).2.hes = some ⟨he2, tc, c, ec, f2⟩ ∧
    lookupA he2 (flip_edge (flip_edge m e).2 e).2.hes = some ⟨hn1, he1, b, e, f2⟩ ∧
    lookupA hn2 (flip_edge (flip_edge m e).2 e).2.hes = some ⟨hnn2, td, b, ed, f1⟩ ∧
    lookupA hnn2 (flip_edge (flip_edge m e).2 e).2.hes = some ⟨he1, te, d, ee, f1⟩ ∧
    lookupA f1 (flip_edge (flip_edge m e).2 e).2.faces = some ⟨he1, false⟩ ∧
    lookupA f2 (flip_edge (flip_edge m e).2 e).2.faces = some ⟨he2, false⟩ ∧
    (∀ h, h ≠ he1 → h ≠ hn1 → h ≠ hnn1 → h ≠ he2 → h ≠ hn2 → h ≠ hnn2 →
      lookupA h (flip_edge (flip_edge m e).2 e).2.hes = lookupA h m.hes) ∧
    (∀ f, f ≠ f1 → f ≠ f2 →
      lookupA f (flip_edge (flip_edge m e).2 e).2.faces = lookupA f m.faces) := by
  obtain ⟨hs1, hv1, hed1, hfr1, L1, L2, L3, L4, L5, L6, LF1, LF2, Ph, Pf⟩ :=
    flip_step m e he1 hn1 hnn1 he2 hn2 hnn2 a b c d eb ec ed ee tb tc td te f1 f2 r1 r2
      He H1 H2 H3 H4 H5 H6 HF1 HF2
      N12 N13 N14 N15 N16 N23 N24 N25 N26 N34 N35 N36 N45 N46 N56 Df
  obtain ⟨hs2, hv2, hed2, hfr2, M1, M2, M3, M4, M5, M6, MF1, MF2, Qh, Qf⟩ :=
    flip_step (flip_edge m e).2 e he1 hnn1 hn2 he2 hnn2 hn1 c d b a ec ed ee eb tc td te tb
      f1 f2 he1 he2
      (by rw [hed1]; exact He) L1 L3 L5 L4 L6 L2 LF1 LF2
      N13 N15 N14 N16 N12 N35 N34 N36 N23.symm N45.symm N56 N25.symm N46 N24.symm N26.symm Df
  refine ⟨hs1, hs2, ?_, ?_, ?_, M1, M6, M2, M4, M3, M5, MF1, MF2, ?_, ?_⟩
  · rw [hv2, hv1]
  · rw [hed2, hed1]
  · rw [hfr2, hfr1]
  · intro h h1 h2 h3 h4 h5 h6
    rw [Qh h h1 h3 h5 h4 h6 h2, Ph h h1 h2 h3 h4 h5 h6]
  · intro f hf1 hf2
    rw [Qf f hf1 hf2, Pf f hf1 hf2]

theorem flip_edge_twice_transposes_witness :
    (flip_edge tetra 31).1 = some 31 ∧
    (flip_edge (flip_edge tetra 31).2 31).1 = some 31 ∧
    (flip_edge (flip_edge tetra 31).2 31).2.verts = tetra.verts ∧
    (flip_edge (flip_edge tetra 31).2 31).2.edges = tetra.edges ∧
    (flip_edge (flip_edge tetra 31).2 31).2.fresh = tetra.fresh ∧
    lookupA 1 (flip_edge (flip_edge tetra 31).2 31).2.hes = some ⟨7, 9, 22, 31, 41⟩ ∧
    lookupA 2 (flip_edge (flip_edge tetra 31).2 31).2.hes = some ⟨3, 12, 22, 32, 43⟩ ∧
    lookupA 3 (flip_edge (flip_edge tetra 31).2 31).2.hes = some ⟨9, 4, 23, 33, 43⟩ ∧
    lookupA 9 (flip_edge (flip_edge tetra 31).2 31).2.hes = some ⟨2, 1, 21, 31, 43⟩ ∧
    lookupA 7 (flip_edge (flip_edge tetra 31).2 31).2.hes = some ⟨8, 6, 21, 35, 41⟩ ∧
    lookupA 8 (flip_edge (flip_edge tetra 31).2 31).2.hes = some ⟨1, 10, 24, 36, 41⟩ ∧
    lookupA 41 (flip_edge (flip_edge tetra 31).2 31).2.faces = some ⟨1, false⟩ ∧
    lookupA 43 (flip_edge (flip_edge tetra 31).2 31).2.faces = some ⟨9, false⟩ ∧
    (∀ h, h ≠ 1 → h ≠ 2 → h ≠ 3 → h ≠ 9 → h ≠ 7 → h ≠ 8 →
      lookupA h (flip_edge (flip_edge tetra 31).2 31).2.hes = lookupA h tetra.hes) ∧
    (∀ f, f ≠ 41 → f ≠ 43 →
      lookupA f (flip_edge (flip_edge tetra 31).2 31).2.faces = lookupA f tetra.faces) :=
  flip_edge_twice_transposes tetra 31 1 2 3 9 7 8 22 21 23 24 32 33 35 36 12 4 6 10 41 43 1 9
    (by decide) (by decide) (by decide) (by decide) (by decide) (by decide) (by decide)
    (by decide) (by decide) (by decide) (by decide) (by decide) (by decide) (by decide)
    (by decide) (by decide) (by decide) (by decide) (by decide) (by decide) (by decide)
    (by decide) (by decide) (by decide) (by decide)

end MeshEdit
